import Mathlib

/-!
Verification of the hotel inventory refresh / search-cache subsystem of the
Traveller Partner service.

The Python sources are shallowly embedded:
* `app/api/repositories/hotel_repository.py` — search-freshness cache
  (`generate_search_hash`, `save_search_history`, `is_search_fresh`,
  `get_fresh_search_results`, `cleanup_expired_searches`) and the hotel
  upsert (`save_hotel_details`);
* `app/services/hotel_refresh_service.py` — the partition refresh executor
  (`refresh_hotels_for_city`, `_process_hotel_batch`, `_process_single_hotel`);
* `app/services/scheduler_service.py` — the scheduler's per-job wrapper
  (`_refresh_hotels_for_city`).

Python `datetime` values are modelled as natural numbers (an abstract tick
count; `timedelta(minutes=m)` adds `m` ticks).  Python floats that the claims
never compute with (coordinates, response times) are modelled as `Int`s: the
code only stores and copies them.  Fallible Python code is modelled with
`Except String`, the error string standing for `str(e)`.
-/

/-! ## SHA-256 (`hashlib.sha256(...).hexdigest()`), over byte lists -/

def w32 (n : Nat) : Nat := n % 4294967296

def rotr32 (n x : Nat) : Nat := w32 ((x >>> n) ||| (x <<< (32 - n)))

def bsig0 (x : Nat) : Nat := (rotr32 2 x) ^^^ (rotr32 13 x) ^^^ (rotr32 22 x)

def bsig1 (x : Nat) : Nat := (rotr32 6 x) ^^^ (rotr32 11 x) ^^^ (rotr32 25 x)

def ssig0 (x : Nat) : Nat := (rotr32 7 x) ^^^ (rotr32 18 x) ^^^ (x >>> 3)

def ssig1 (x : Nat) : Nat := (rotr32 17 x) ^^^ (rotr32 19 x) ^^^ (x >>> 10)

def chF (x y z : Nat) : Nat := (x &&& y) ^^^ ((x ^^^ 0xffffffff) &&& z)

def majF (x y z : Nat) : Nat := (x &&& y) ^^^ (x &&& z) ^^^ (y &&& z)

/-- The 64 SHA-256 round constants, written in decimal. -/
def K64 : List Nat :=
  [1116352408, 1899447441, 3049323471, 3921009573, 961987163, 1508970993,
   2453635748, 2870763221, 3624381080, 310598401, 607225278, 1426881987,
   1925078388, 2162078206, 2614888103, 3248222580, 3835390401, 4022224774,
   264347078, 604807628, 770255983, 1249150122, 1555081692, 1996064986,
   2554220882, 2821834349, 2952996808, 3210313671, 3336571891, 3584528711,
   113926993, 338241895, 666307205, 773529912, 1294757372, 1396182291,
   1695183700, 1986661051, 2177026350, 2456956037, 2730485921, 2820302411,
   3259730800, 3345764771, 3516065817, 3600352804, 4094571909, 275423344,
   430227734, 506948616, 659060556, 883997877, 958139571, 1322822218,
   1537002063, 1747873779, 1955562222, 2024104815, 2227730452, 2361852424,
   2428436474, 2756734187, 3204031479, 3329325298]

structure H8 where
  a : Nat
  b : Nat
  c : Nat
  d : Nat
  e : Nat
  f : Nat
  g : Nat
  h : Nat
deriving Repr, DecidableEq

/-- The eight SHA-256 initial hash values, written in decimal. -/
def initH : H8 :=
  ⟨1779033703, 3144134277, 1013904242, 2773480762,
   1359893119, 2600822924, 528734635, 1541459225⟩

def padMsg (msg : List Nat) : List Nat :=
  let len := msg.length
  let padLen := (119 - (len % 64)) % 64
  let bitLen := 8 * len
  msg ++ [0x80] ++ List.replicate padLen 0 ++
    (List.range 8).map (fun i => (bitLen >>> (8 * (7 - i))) % 256)

def chunks64 : List Nat → List (List Nat)
  | [] => []
  | a :: rest => ((a :: rest).take 64) :: chunks64 (rest.drop 63)
termination_by l => l.length
decreasing_by
  simp [List.length_drop]
  omega

def wordOf (chunk : List Nat) (i : Nat) : Nat :=
  ((chunk.getD (4 * i) 0) <<< 24) ||| ((chunk.getD (4 * i + 1) 0) <<< 16) |||
    ((chunk.getD (4 * i + 2) 0) <<< 8) ||| chunk.getD (4 * i + 3) 0

def initW (chunk : List Nat) : List Nat := (List.range 16).map (wordOf chunk)

def extendW (w : List Nat) : List Nat :=
  (List.range 48).foldl (fun acc _ =>
    let n := acc.length
    acc ++ [w32 (ssig1 (acc.getD (n - 2) 0) + acc.getD (n - 7) 0 +
                 ssig0 (acc.getD (n - 15) 0) + acc.getD (n - 16) 0)]) w

def round1 (st : H8) (kw : Nat × Nat) : H8 :=
  let t1 := w32 (st.h + bsig1 st.e + chF st.e st.f st.g + kw.1 + kw.2)
  let t2 := w32 (bsig0 st.a + majF st.a st.b st.c)
  ⟨w32 (t1 + t2), st.a, st.b, st.c, w32 (st.d + t1), st.e, st.f, st.g⟩

def processChunk (h0 : H8) (chunk : List Nat) : H8 :=
  let ws := extendW (initW chunk)
  let st := (K64.zip ws).foldl round1 h0
  ⟨w32 (h0.a + st.a), w32 (h0.b + st.b), w32 (h0.c + st.c), w32 (h0.d + st.d),
   w32 (h0.e + st.e), w32 (h0.f + st.f), w32 (h0.g + st.g), w32 (h0.h + st.h)⟩

def hex8 (w : Nat) : List Char :=
  (List.range 8).map (fun i => Nat.digitChar ((w >>> (4 * (7 - i))) % 16))

def sha256hex (msg : List Nat) : String :=
  let fin := (chunks64 (padMsg msg)).foldl processChunk initH
  String.mk (hex8 fin.a ++ hex8 fin.b ++ hex8 fin.c ++ hex8 fin.d ++
             hex8 fin.e ++ hex8 fin.f ++ hex8 fin.g ++ hex8 fin.h)

/-- UTF-8 encoding of one character (Python `str.encode()`). -/
def utf8Bytes (c : Char) : List Nat :=
  let n := c.toNat
  if n < 128 then [n]
  else if n < 2048 then [192 ||| (n >>> 6), 128 ||| (n &&& 63)]
  else if n < 65536 then
    [224 ||| (n >>> 12), 128 ||| ((n >>> 6) &&& 63), 128 ||| (n &&& 63)]
  else
    [240 ||| (n >>> 18), 128 ||| ((n >>> 12) &&& 63), 128 ||| ((n >>> 6) &&& 63),
     128 ||| (n &&& 63)]

def strBytes (s : String) : List Nat := (s.data.map utf8Bytes).flatten

/-! ## JSON values and `json.dumps(..., sort_keys=True)` -/

/-- A JSON value, as passed for the search-parameter dictionaries. -/
inductive JValue where
  | jnull : JValue
  | jbool : Bool → JValue
  | jnum : Int → JValue
  | jstr : String → JValue
  | jarr : List JValue → JValue
  | jobj : List (String × JValue) → JValue
deriving Repr

/-- Key order used by `sort_keys=True`: compare the keys of two fields. -/
def keyLE (p q : String × JValue) : Prop := p.1 ≤ q.1

instance : DecidableRel keyLE := fun p q => inferInstanceAs (Decidable (p.1 ≤ q.1))

instance : IsTotal (String × JValue) keyLE := ⟨fun p q => le_total p.1 q.1⟩

instance : IsTrans (String × JValue) keyLE := ⟨fun _ _ _ hab hbc => le_trans hab hbc⟩

mutual

/-- Recursively put every object's fields into sorted key order
(`json.dumps(..., sort_keys=True)` sorts keys at every nesting level). -/
def sortKeysJ : JValue → JValue
  | .jnull => .jnull
  | .jbool b => .jbool b
  | .jnum n => .jnum n
  | .jstr s => .jstr s
  | .jarr items => .jarr (sortKeysArr items)
  | .jobj fields => .jobj (List.insertionSort keyLE (sortKeysFields fields))

def sortKeysArr : List JValue → List JValue
  | [] => []
  | v :: rest => sortKeysJ v :: sortKeysArr rest

def sortKeysFields : List (String × JValue) → List (String × JValue)
  | [] => []
  | (k, v) :: rest => (k, sortKeysJ v) :: sortKeysFields rest

end

/-- JSON string escaping (quote and backslash; other characters verbatim). -/
def jsonEscChar (c : Char) : List Char :=
  if c = '"' then ['\\', '"']
  else if c = '\\' then ['\\', '\\']
  else [c]

def jsonStr (s : String) : String :=
  String.mk ('"' :: (s.data.map jsonEscChar).flatten ++ ['"'])

mutual

/-- Serialization matching `json.dumps` default separators (", " and ": "). -/
def serJ : JValue → String
  | .jnull => "null"
  | .jbool true => "true"
  | .jbool false => "false"
  | .jnum n => toString n
  | .jstr s => jsonStr s
  | .jarr items => "[" ++ serArr items ++ "]"
  | .jobj fields => "\x7b" ++ serFields fields ++ "\x7d"

def serArr : List JValue → String
  | [] => ""
  | [v] => serJ v
  | v :: rest => serJ v ++ ", " ++ serArr rest

def serFields : List (String × JValue) → String
  | [] => ""
  | [(k, v)] => jsonStr k ++ ": " ++ serJ v
  | (k, v) :: rest => jsonStr k ++ ": " ++ serJ v ++ ", " ++ serFields rest

end

/-- `HotelRepository.generate_search_hash`:
`hashlib.sha256(json.dumps(search_params, sort_keys=True).encode()).hexdigest()`. -/
def generate_search_hash (search_params : List (String × JValue)) : String :=
  sha256hex (strBytes (serJ (sortKeysJ (JValue.jobj search_params))))

/-! ## Search freshness cache (`SearchHistory` table and its repository methods)

The `search_history` table is modelled as a list of rows in insertion order;
`search_hash` carries a unique index, `id` is the autoincrement primary key.
`datetime.utcnow()` is the `now` argument; `timedelta(minutes=m)` adds `m`. -/

structure SearchEntry where
  eid : Nat
  search_hash : String
  search_params : List (String × JValue)
  search_results : List String
  hotels_count : Nat
  api_response_time : Int
  created_at : Nat
  updated_at : Nat
  expires_at : Nat
  is_fresh : Bool
deriving Repr

abbrev CacheDb := List SearchEntry

/-- `get_search_history`: `db.query(SearchHistory).filter(...search_hash...).first()`. -/
def get_search_history (db : CacheDb) (search_hash : String) : Option SearchEntry :=
  db.find? (fun e => e.search_hash == search_hash)

/-- Mutating the ORM row returned by `get_search_history` updates, in place,
the first row whose `search_hash` matches. -/
def updateFirst (db : CacheDb) (search_hash : String)
    (f : SearchEntry → SearchEntry) : CacheDb :=
  match db with
  | [] => []
  | e :: rest =>
    if e.search_hash == search_hash then f e :: rest
    else e :: updateFirst rest search_hash f

/-- `HotelRepository.is_search_fresh`: returns the freshness verdict and the
database after the side effect (`is_fresh = False` is committed when the entry
is strictly past `expires_at`). -/
def is_search_fresh (now : Nat) (db : CacheDb) (search_hash : String) :
    Bool × CacheDb :=
  match get_search_history db search_hash with
  | none => (false, db)
  | some sh =>
    if sh.expires_at < now then
      (false, updateFirst db search_hash (fun e => { e with is_fresh := false }))
    else
      (sh.is_fresh, db)

/-- `HotelRepository.get_fresh_search_results`.  Python's
`search_history and self.is_search_fresh(...)` short-circuits, so a missing
entry never reaches `is_search_fresh`. -/
def get_fresh_search_results (now : Nat) (db : CacheDb) (search_hash : String) :
    List String × CacheDb :=
  match get_search_history db search_hash with
  | none => ([], db)
  | some sh =>
    let fr := is_search_fresh now db search_hash
    if fr.1 then (sh.search_results, fr.2) else ([], fr.2)

/-- The field writes performed on the existing row by the update branch of
`save_search_history` (note: `created_at` is not among them). -/
def refreshEntry (now : Nat) (search_results : List String) (response_time : Int)
    (expires_at : Nat) (e : SearchEntry) : SearchEntry :=
  { e with search_results := search_results,
           hotels_count := search_results.length,
           api_response_time := response_time,
           updated_at := now,
           expires_at := expires_at,
           is_fresh := true }

/-- `HotelRepository.save_search_history`.  `newId` is the autoincrement key a
fresh row would receive; `created_at`/`updated_at` on the insert path come from
the column defaults (`default=datetime.utcnow`).  Returns the stored row and
the new database state. -/
def save_search_history (now : Nat) (db : CacheDb) (newId : Nat)
    (search_params : List (String × JValue)) (search_results : List String)
    (response_time : Int) (cache_duration_minutes : Nat) :
    Option SearchEntry × CacheDb :=
  let search_hash := generate_search_hash search_params
  let expires_at := now + cache_duration_minutes
  match get_search_history db search_hash with
  | some _ =>
    let db2 := updateFirst db search_hash
      (refreshEntry now search_results response_time expires_at)
    (get_search_history db2 search_hash, db2)
  | none =>
    let entry : SearchEntry :=
      { eid := newId, search_hash := search_hash, search_params := search_params,
        search_results := search_results, hotels_count := search_results.length,
        api_response_time := response_time, created_at := now, updated_at := now,
        expires_at := expires_at, is_fresh := true }
    (some entry, db ++ [entry])

/-- Creation order used by `order_by(SearchHistory.created_at.asc())`. -/
def createdLE (a b : SearchEntry) : Prop := a.created_at ≤ b.created_at

instance : DecidableRel createdLE :=
  fun a b => inferInstanceAs (Decidable (a.created_at ≤ b.created_at))

instance : IsTotal SearchEntry createdLE := ⟨fun a b => Nat.le_total a.created_at b.created_at⟩

instance : IsTrans SearchEntry createdLE := ⟨fun _ _ _ hab hbc => Nat.le_trans hab hbc⟩

/-- First phase of `cleanup_expired_searches`: mark every row strictly past
its `expires_at` as not fresh. -/
def markExpired (now : Nat) (db : CacheDb) : CacheDb :=
  db.map (fun e => if e.expires_at < now then { e with is_fresh := false } else e)

/-- Row survival under `db.delete(entry) for entry in old_entries`: the ORM
deletes each fetched row by its primary key. -/
def keepPred (oldIds : List Nat) (e : SearchEntry) : Bool := !(decide (e.eid ∈ oldIds))

/-- `HotelRepository.cleanup_expired_searches`: mark expired rows, then, when
the table exceeds `max_entries`, fetch the `total - max_entries` oldest rows by
`created_at` and delete them. -/
def cleanup_expired_searches (now : Nat) (db : CacheDb) (max_entries : Nat) :
    CacheDb :=
  let marked := markExpired now db
  let total_entries := marked.length
  if max_entries < total_entries then
    let old_entries := (List.insertionSort createdLE marked).take (total_entries - max_entries)
    let oldIds := old_entries.map (fun e => e.eid)
    marked.filter (keepPred oldIds)
  else marked

/-! ## C7: fingerprint stability -/

lemma sortKeysFields_eq_map (l : List (String × JValue)) :
    sortKeysFields l = l.map (fun p => (p.1, sortKeysJ p.2)) := by
  induction l with
  | nil => simp [sortKeysFields]
  | cons p rest ih =>
    cases p with
    | mk k v => simp [sortKeysFields, ih]

lemma sortedKeyLE_nodup_perm_eq :
    ∀ l1 l2 : List (String × JValue), l1.Perm l2 →
      List.Sorted keyLE l1 → List.Sorted keyLE l2 →
      (l1.map Prod.fst).Nodup → l1 = l2 := by
  intro l1
  induction l1 with
  | nil =>
    intro l2 hp _ _ _
    exact (hp.symm.eq_nil).symm
  | cons a t1 ih =>
    intro l2 hp hs1 hs2 hnd
    cases l2 with
    | nil => exact absurd hp.eq_nil (by simp)
    | cons b t2 =>
      have hba : b = a := by
        have hbmem : b ∈ a :: t1 := hp.mem_iff.mpr (List.mem_cons_self b t2)
        rcases List.mem_cons.mp hbmem with h | h
        · exact h
        · have hab1 : a.1 ≤ b.1 := (List.sorted_cons.mp hs1).1 b h
          have hamem : a ∈ b :: t2 := hp.mem_iff.mp (List.mem_cons_self a t1)
          rcases List.mem_cons.mp hamem with h2 | h2
          · exact h2.symm
          · have hba1 : b.1 ≤ a.1 := (List.sorted_cons.mp hs2).1 a h2
            have hkey : a.1 = b.1 := le_antisymm hab1 hba1
            exfalso
            have hmem : b.1 ∈ t1.map Prod.fst := List.mem_map_of_mem Prod.fst h
            rw [List.map_cons] at hnd
            exact (List.nodup_cons.mp hnd).1 (hkey ▸ hmem)
      subst hba
      have hp' : t1.Perm t2 := hp.cons_inv
      have hnd' : (t1.map Prod.fst).Nodup := by
        rw [List.map_cons] at hnd
        exact (List.nodup_cons.mp hnd).2
      rw [ih t2 hp' (List.sorted_cons.mp hs1).2 (List.sorted_cons.mp hs2).2 hnd']

lemma insertionSort_keyLE_eq (l1 l2 : List (String × JValue)) (hp : l1.Perm l2)
    (hnd : (l1.map Prod.fst).Nodup) :
    List.insertionSort keyLE l1 = List.insertionSort keyLE l2 := by
  apply sortedKeyLE_nodup_perm_eq
  · exact (List.perm_insertionSort keyLE l1).trans
      (hp.trans (List.perm_insertionSort keyLE l2).symm)
  · exact List.sorted_insertionSort keyLE l1
  · exact List.sorted_insertionSort keyLE l2
  · exact ((List.perm_insertionSort keyLE l1).map Prod.fst).nodup_iff.mpr hnd

lemma string_mk_length (l : List Char) : (String.mk l).length = l.length := rfl

lemma sha256hex_length (msg : List Nat) : (sha256hex msg).length = 64 := by
  unfold sha256hex
  rw [string_mk_length]
  simp [hex8]

/-- C7: `generate_search_hash` is a deterministic function of the parameter
set's key-value contents — two parameter dictionaries with the same keys and
values (i.e. permutations of one another, keys being unique in a dict) hash to
the same digest regardless of insertion order — and every digest is a
64-hex-character SHA-256 string. -/
theorem generate_search_hash_spec :
    (∀ l1 l2 : List (String × JValue), l1.Perm l2 → (l1.map Prod.fst).Nodup →
      generate_search_hash l1 = generate_search_hash l2) ∧
    (∀ params : List (String × JValue), (generate_search_hash params).length = 64) := by
  constructor
  · intro l1 l2 hp hnd
    unfold generate_search_hash
    have hkey : sortKeysJ (JValue.jobj l1) = sortKeysJ (JValue.jobj l2) := by
      simp only [sortKeysJ]
      rw [sortKeysFields_eq_map, sortKeysFields_eq_map]
      refine congrArg JValue.jobj (insertionSort_keyLE_eq _ _ (hp.map _) ?_)
      simp only [List.map_map]
      have hcomp : (Prod.fst ∘ fun p : String × JValue => (p.1, sortKeysJ p.2)) = Prod.fst := by
        funext p
        rfl
      rw [hcomp]
      exact hnd
    rw [hkey]
  · intro params
    exact sha256hex_length _

/-- Witness for C7 at the spec's own example `fingerprint({a:1,b:2}) ==
fingerprint({b:2,a:1})`. -/
theorem generate_search_hash_spec_witness :
    generate_search_hash [("a", JValue.jnum 1), ("b", JValue.jnum 2)] =
      generate_search_hash [("b", JValue.jnum 2), ("a", JValue.jnum 1)] :=
  generate_search_hash_spec.1 _ _
    (List.Perm.swap ("b", JValue.jnum 2) ("a", JValue.jnum 1) [])
    (by decide)

/-! ## C4: cache get semantics -/

/-- A concrete cache row used to exhibit the `now = expires_at` boundary. -/
def boundaryEntry : SearchEntry :=
  { eid := 1, search_hash := "h1", search_params := [], search_results := ["r0"],
    hotels_count := 1, api_response_time := 0, created_at := 0, updated_at := 0,
    expires_at := 10, is_fresh := true }

/-- C4 counterexample: the claim says the cache returns the stored snapshot
only if the current time is strictly before `expires_at`; but the code treats
an entry as expired only when `now > expires_at`, so at `now = expires_at`
(here both 10) the lookup still returns the snapshot. -/
theorem get_fresh_search_results_boundary_counterexample :
    (get_fresh_search_results 10 [boundaryEntry] "h1").1 = ["r0"] ∧
      ¬(10 < boundaryEntry.expires_at) := by
  constructor
  · rfl
  · decide

/-- C4 (amended): the cache returns the stored snapshot exactly when an entry
exists, the current time is **not after** `expires_at` (`now ≤ expires_at`,
since the code checks `utcnow() > expires_at`), and `is_fresh` is true;
otherwise it reports a miss, and when the entry exists but is strictly past
`expires_at` the lookup flips its `is_fresh` flag to false as a side effect,
while a never-cached fingerprint reports a miss with no state change. -/
theorem get_fresh_search_results_spec (now : Nat) (db : CacheDb) (h : String) :
    (get_search_history db h = none →
      get_fresh_search_results now db h = ([], db)) ∧
    (∀ e, get_search_history db h = some e →
      (now ≤ e.expires_at → e.is_fresh = true →
        get_fresh_search_results now db h = (e.search_results, db)) ∧
      (e.expires_at < now →
        get_fresh_search_results now db h =
          ([], updateFirst db h (fun x => { x with is_fresh := false }))) ∧
      (now ≤ e.expires_at → e.is_fresh = false →
        get_fresh_search_results now db h = ([], db))) := by
  refine ⟨?_, ?_⟩
  · intro hnone
    simp [get_fresh_search_results, hnone]
  · intro e he
    refine ⟨?_, ?_, ?_⟩
    · intro hle hfr
      have hnot : ¬(e.expires_at < now) := by omega
      simp [get_fresh_search_results, is_search_fresh, he, hnot, hfr]
    · intro hlt
      simp [get_fresh_search_results, is_search_fresh, he, hlt]
    · intro hle hfr
      have hnot : ¬(e.expires_at < now) := by omega
      simp [get_fresh_search_results, is_search_fresh, he, hnot, hfr]

/-- Witness for C4: a fresh hit at `now = 5 < 10 = expires_at` returns the
snapshot unchanged, by the amended theorem. -/
theorem get_fresh_search_results_spec_witness :
    get_fresh_search_results 5 [boundaryEntry] "h1" = (["r0"], [boundaryEntry]) :=
  (((get_fresh_search_results_spec 5 [boundaryEntry] "h1").2 boundaryEntry rfl).1
    (by decide) rfl)

/-! ## C5: eviction bound and FIFO policy -/

lemma markExpired_map_eid (now : Nat) (db : CacheDb) :
    (markExpired now db).map (fun e => e.eid) = db.map (fun e => e.eid) := by
  unfold markExpired
  rw [List.map_map]
  apply List.map_congr_left
  intro e _
  by_cases hc : e.expires_at < now <;> simp [Function.comp, hc]

lemma markExpired_length (now : Nat) (db : CacheDb) :
    (markExpired now db).length = db.length := by
  simp [markExpired]

lemma mem_markExpired_expired (now : Nat) (db : CacheDb) :
    ∀ e ∈ markExpired now db, e.expires_at < now → e.is_fresh = false := by
  intro e he hlt
  unfold markExpired at he
  rcases List.mem_map.mp he with ⟨x, hx, hxe⟩
  by_cases hc : x.expires_at < now
  · rw [if_pos hc] at hxe
    subst hxe
    rfl
  · rw [if_neg hc] at hxe
    subst hxe
    exact absurd hlt hc

lemma cleanup_eq_pos (now : Nat) (db : CacheDb) (max_entries : Nat)
    (hc : max_entries < (markExpired now db).length) :
    cleanup_expired_searches now db max_entries =
      (markExpired now db).filter (keepPred
        (((List.insertionSort createdLE (markExpired now db)).take
            ((markExpired now db).length - max_entries)).map (fun e => e.eid))) := by
  simp only [cleanup_expired_searches]
  rw [if_pos hc]

lemma cleanup_eq_neg (now : Nat) (db : CacheDb) (max_entries : Nat)
    (hc : ¬ max_entries < (markExpired now db).length) :
    cleanup_expired_searches now db max_entries = markExpired now db := by
  simp only [cleanup_expired_searches]
  rw [if_neg hc]

/-- C5: `cleanup_expired_searches` marks every entry strictly past its
`expires_at` as not fresh, and when the total entry count exceeds
`max_entries` (entry ids being unique, as the primary key is) it deletes the
oldest-by-`created_at` entries so that exactly `max_entries` remain, every
deleted entry being no younger than every retained one. -/
theorem cleanup_expired_searches_spec (now : Nat) (db : CacheDb) (max_entries : Nat)
    (hnd : (db.map (fun e => e.eid)).Nodup) :
    (∀ e ∈ cleanup_expired_searches now db max_entries,
        e.expires_at < now → e.is_fresh = false) ∧
    (max_entries < db.length →
        (cleanup_expired_searches now db max_entries).length = max_entries) ∧
    (∀ r ∈ cleanup_expired_searches now db max_entries,
     ∀ d ∈ markExpired now db, d ∉ cleanup_expired_searches now db max_entries →
        d.created_at ≤ r.created_at) := by
  have hlen_eq : (markExpired now db).length = db.length := markExpired_length now db
  by_cases hc : max_entries < (markExpired now db).length
  · have hdef := cleanup_eq_pos now db max_entries hc
    have hndm : ((markExpired now db).map (fun e => e.eid)).Nodup := by
      rw [markExpired_map_eid]
      exact hnd
    have hperm : (List.insertionSort createdLE (markExpired now db)).Perm (markExpired now db) :=
      List.perm_insertionSort createdLE (markExpired now db)
    have hnds : ((List.insertionSort createdLE (markExpired now db)).map (fun e => e.eid)).Nodup :=
      (hperm.map (fun e => e.eid)).nodup_iff.mpr hndm
    have hndsorted : (List.insertionSort createdLE (markExpired now db)).Nodup :=
      List.Nodup.of_map _ hnds
    refine ⟨?_, ?_, ?_⟩
    · intro e he hlt
      rw [hdef] at he
      exact mem_markExpired_expired now db e (List.mem_filter.mp he).1 hlt
    · intro _
      rw [hdef]
      have hfperm := hperm.filter (keepPred
        (((List.insertionSort createdLE (markExpired now db)).take
            ((markExpired now db).length - max_entries)).map (fun e => e.eid)))
      rw [← hfperm.length_eq]
      have h1 : ((List.insertionSort createdLE (markExpired now db)).filter (keepPred
          (((List.insertionSort createdLE (markExpired now db)).take
              ((markExpired now db).length - max_entries)).map (fun e => e.eid)))).length =
        (((List.insertionSort createdLE (markExpired now db)).take
            ((markExpired now db).length - max_entries) ++
          (List.insertionSort createdLE (markExpired now db)).drop
            ((markExpired now db).length - max_entries)).filter (keepPred
          (((List.insertionSort createdLE (markExpired now db)).take
              ((markExpired now db).length - max_entries)).map (fun e => e.eid)))).length := by
        rw [List.take_append_drop]
      rw [h1, List.filter_append]
      have h3 : ((List.insertionSort createdLE (markExpired now db)).take
          ((markExpired now db).length - max_entries)).filter (keepPred
            (((List.insertionSort createdLE (markExpired now db)).take
                ((markExpired now db).length - max_entries)).map (fun e => e.eid))) = [] := by
        apply List.filter_eq_nil_iff.mpr
        intro a ha
        simp only [keepPred, Bool.not_eq_true', decide_eq_false_iff_not, not_not]
        exact List.mem_map_of_mem _ ha
      have h4 : ((List.insertionSort createdLE (markExpired now db)).drop
          ((markExpired now db).length - max_entries)).filter (keepPred
            (((List.insertionSort createdLE (markExpired now db)).take
                ((markExpired now db).length - max_entries)).map (fun e => e.eid))) =
          (List.insertionSort createdLE (markExpired now db)).drop
            ((markExpired now db).length - max_entries) := by
        apply List.filter_eq_self.mpr
        intro a ha
        simp only [keepPred, Bool.not_eq_true', decide_eq_false_iff_not]
        intro hin
        rcases List.mem_map.mp hin with ⟨t, ht, hte⟩
        have htS : t ∈ List.insertionSort createdLE (markExpired now db) :=
          (List.take_sublist _ _).subset ht
        have haS : a ∈ List.insertionSort createdLE (markExpired now db) :=
          (List.drop_sublist _ _).subset ha
        have hta : t = a := List.inj_on_of_nodup_map hnds htS haS hte
        subst hta
        have hpwnd : ((List.insertionSort createdLE (markExpired now db)).take
            ((markExpired now db).length - max_entries) ++
          (List.insertionSort createdLE (markExpired now db)).drop
            ((markExpired now db).length - max_entries)).Nodup := by
          rw [List.take_append_drop]
          exact hndsorted
        exact (List.nodup_append.mp hpwnd).2.2 ht ha
      rw [h3, h4]
      simp only [List.nil_append, List.length_drop]
      have := hperm.length_eq
      omega
    · intro r hr d hd hdnot
      rw [hdef] at hr hdnot
      have hr1 : r ∈ markExpired now db := (List.mem_filter.mp hr).1
      have hr2 := (List.mem_filter.mp hr).2
      have hpd : keepPred
          (((List.insertionSort createdLE (markExpired now db)).take
              ((markExpired now db).length - max_entries)).map (fun e => e.eid)) d = false := by
        by_cases hb : keepPred
            (((List.insertionSort createdLE (markExpired now db)).take
                ((markExpired now db).length - max_entries)).map (fun e => e.eid)) d = true
        · exact absurd (List.mem_filter.mpr ⟨hd, hb⟩) hdnot
        · simpa using hb
      have hdin : d.eid ∈ ((List.insertionSort createdLE (markExpired now db)).take
          ((markExpired now db).length - max_entries)).map (fun e => e.eid) := by
        simpa [keepPred] using hpd
      rcases List.mem_map.mp hdin with ⟨t, ht, hte⟩
      have htS : t ∈ List.insertionSort createdLE (markExpired now db) :=
        (List.take_sublist _ _).subset ht
      have hdS : d ∈ List.insertionSort createdLE (markExpired now db) :=
        hperm.mem_iff.mpr hd
      have htd : t = d := List.inj_on_of_nodup_map hnds htS hdS hte
      subst htd
      have hrS : r ∈ List.insertionSort createdLE (markExpired now db) :=
        hperm.mem_iff.mpr hr1
      have hrsplit : r ∈ (List.insertionSort createdLE (markExpired now db)).take
          ((markExpired now db).length - max_entries) ++
        (List.insertionSort createdLE (markExpired now db)).drop
          ((markExpired now db).length - max_entries) := by
        rw [List.take_append_drop]
        exact hrS
      rcases List.mem_append.mp hrsplit with hrt | hrd
      · exfalso
        simp only [keepPred, Bool.not_eq_true', decide_eq_false_iff_not] at hr2
        exact hr2 (List.mem_map_of_mem _ hrt)
      · have hpw : List.Pairwise createdLE
            ((List.insertionSort createdLE (markExpired now db)).take
                ((markExpired now db).length - max_entries) ++
              (List.insertionSort createdLE (markExpired now db)).drop
                ((markExpired now db).length - max_entries)) := by
          rw [List.take_append_drop]
          exact List.sorted_insertionSort createdLE (markExpired now db)
        exact (List.pairwise_append.mp hpw).2.2 t ht r hrd
  · have hdef := cleanup_eq_neg now db max_entries hc
    refine ⟨?_, ?_, ?_⟩
    · intro e he hlt
      rw [hdef] at he
      exact mem_markExpired_expired now db e he hlt
    · intro hlt
      exfalso
      apply hc
      omega
    · intro r hr d hd hdnot
      rw [hdef] at hdnot
      exact absurd hd hdnot

/-- Rows for the eviction witness: three distinct ids, `evEntry2` both oldest
and expired at `now = 10`. -/
def evEntry1 : SearchEntry :=
  { eid := 1, search_hash := "e1", search_params := [], search_results := [],
    hotels_count := 0, api_response_time := 0, created_at := 5, updated_at := 5,
    expires_at := 20, is_fresh := true }

def evEntry2 : SearchEntry :=
  { eid := 2, search_hash := "e2", search_params := [], search_results := [],
    hotels_count := 0, api_response_time := 0, created_at := 3, updated_at := 3,
    expires_at := 4, is_fresh := true }

def evEntry3 : SearchEntry :=
  { eid := 3, search_hash := "e3", search_params := [], search_results := [],
    hotels_count := 0, api_response_time := 0, created_at := 8, updated_at := 8,
    expires_at := 30, is_fresh := true }

/-- Witness for C5: with 3 distinct entries and `max_entries = 2`, exactly 2
entries remain after cleanup. -/
theorem cleanup_expired_searches_spec_witness :
    (cleanup_expired_searches 10 [evEntry1, evEntry2, evEntry3] 2).length = 2 :=
  (cleanup_expired_searches_spec 10 [evEntry1, evEntry2, evEntry3] 2 (by decide)).2.1
    (by decide)

/-! ## C6: cache put semantics -/

/-- A row whose fingerprint matches the parameter set `[]`, created at time 0. -/
def putEntry : SearchEntry :=
  { eid := 7, search_hash := generate_search_hash [], search_params := [],
    search_results := ["old"], hotels_count := 1, api_response_time := 1,
    created_at := 0, updated_at := 0, expires_at := 3, is_fresh := false }

/-- C6 counterexample: the claim says `save_search_history` sets `created_at`
to the current time in both the insert and the replace case; but the update
branch only writes `updated_at`/`expires_at`/`is_fresh`/payload fields, so a
put at time 5 over an entry created at time 0 leaves `created_at = 0 ≠ 5`. -/
theorem save_search_history_created_at_counterexample :
    ((save_search_history 5 [putEntry] 8 [] ["new"] 2 30).2.head?.map
      (fun e => e.created_at)) = some 0 ∧ (0 : Nat) ≠ 5 := by
  constructor
  · simp [save_search_history, get_search_history, updateFirst, refreshEntry, putEntry]
  · decide

/-- C6 (amended): `save_search_history` either inserts a new entry — with
`created_at = now` (column default), `updated_at = now`,
`expires_at = now + ttl`, `is_fresh = true` — or replaces the existing entry in
place (same entity: its `id` and its `created_at` are unchanged), writing the
new snapshot, `updated_at = now`, `expires_at = now + ttl` and
`is_fresh = true`; `created_at` is set to the current time only on insert. -/
theorem save_search_history_spec (now : Nat) (db : CacheDb) (newId : Nat)
    (params : List (String × JValue)) (results : List String) (rt : Int) (ttl : Nat) :
    (get_search_history db (generate_search_hash params) = none →
      save_search_history now db newId params results rt ttl =
        (some { eid := newId, search_hash := generate_search_hash params,
                search_params := params, search_results := results,
                hotels_count := results.length, api_response_time := rt,
                created_at := now, updated_at := now, expires_at := now + ttl,
                is_fresh := true },
         db ++ [{ eid := newId, search_hash := generate_search_hash params,
                  search_params := params, search_results := results,
                  hotels_count := results.length, api_response_time := rt,
                  created_at := now, updated_at := now, expires_at := now + ttl,
                  is_fresh := true }])) ∧
    (get_search_history db (generate_search_hash params) ≠ none →
      (save_search_history now db newId params results rt ttl).2 =
        updateFirst db (generate_search_hash params)
          (refreshEntry now results rt (now + ttl))) ∧
    (∀ e : SearchEntry,
      (refreshEntry now results rt (now + ttl) e).eid = e.eid ∧
      (refreshEntry now results rt (now + ttl) e).created_at = e.created_at ∧
      (refreshEntry now results rt (now + ttl) e).search_results = results ∧
      (refreshEntry now results rt (now + ttl) e).updated_at = now ∧
      (refreshEntry now results rt (now + ttl) e).expires_at = now + ttl ∧
      (refreshEntry now results rt (now + ttl) e).is_fresh = true) := by
  refine ⟨?_, ?_, ?_⟩
  · intro hnone
    simp [save_search_history, hnone]
  · intro hsome
    rcases h : get_search_history db (generate_search_hash params) with _ | e
    · exact absurd h hsome
    · simp [save_search_history, h]
  · intro e
    exact ⟨rfl, rfl, rfl, rfl, rfl, rfl⟩

/-- Witness for C6: a put on an empty cache inserts the fully initialized
entry. -/
theorem save_search_history_spec_witness :
    save_search_history 5 [] 8 [] ["r"] 2 30 =
      (some { eid := 8, search_hash := generate_search_hash [], search_params := [],
              search_results := ["r"], hotels_count := 1, api_response_time := 2,
              created_at := 5, updated_at := 5, expires_at := 35, is_fresh := true },
       [{ eid := 8, search_hash := generate_search_hash [], search_params := [],
          search_results := ["r"], hotels_count := 1, api_response_time := 2,
          created_at := 5, updated_at := 5, expires_at := 35, is_fresh := true }]) :=
  (save_search_history_spec 5 [] 8 [] ["r"] 2 30).1 rfl

/-! ## Hotel upsert (`HotelRepository.save_hotel_details`)

The `hotels` table row.  The internal autoincrement primary key is `hid`
(`Hotel.id`); `api_hotel_id` is the nullable, uniquely-indexed external
identifier.  Nullable columns are `Option`s; `star_rating`, `avg_rating` and
`total_reviews` carry column defaults 3, 0, 0. -/

structure HotelRow where
  hid : Nat
  api_hotel_id : Option String
  name : String
  description : Option String
  address : Option String
  city : Option String
  state : Option String
  country : Option String
  postal_code : Option String
  latitude : Option Int
  longitude : Option Int
  star_rating : Int
  avg_rating : Int
  total_reviews : Int
deriving Repr, DecidableEq

/-- The incoming `hotel_data` dictionary: every mapped value may be `None`. -/
structure HotelData where
  api_hotel_id : Option String
  name : Option String
  description : Option String
  address : Option String
  city : Option String
  state : Option String
  country : Option String
  postal_code : Option String
  latitude : Option Int
  longitude : Option Int
  star_rating : Option Int
  avg_rating : Option Int
  total_reviews : Option Int
deriving Repr, DecidableEq

structure AmenityRow where
  amenity_name : String
  amenity_type : String
deriving Repr, DecidableEq

structure ImageRow where
  image : String
  caption : String
  is_primary : Bool
  sort_order : Nat
deriving Repr, DecidableEq

/-- The inventory store: hotels plus child tables keyed by the parent's
primary key. -/
structure RStore where
  hotels : List HotelRow
  amenities : List (Nat × AmenityRow)
  images : List (Nat × ImageRow)
deriving Repr, DecidableEq

/-- `db.query(Hotel).filter(Hotel.api_hotel_id == ...).first()`. -/
def findByApiId (hotels : List HotelRow) (api : Option String) : Option HotelRow :=
  hotels.find? (fun h => h.api_hotel_id == api)

/-- The update loop of `save_hotel_details` (and the identical loop in
`_process_single_hotel`): `for key, value in hotel_data.items(): if
hasattr(existing_hotel, key) and value is not None and key != 'api_hotel_id':
setattr(...)`.  A `None` incoming value leaves the stored field unchanged; the
external identifier key is never written. -/
def applyHotelUpdate (row : HotelRow) (d : HotelData) : HotelRow :=
  { row with
    name := d.name.getD row.name,
    description := d.description.or row.description,
    address := d.address.or row.address,
    city := d.city.or row.city,
    state := d.state.or row.state,
    country := d.country.or row.country,
    postal_code := d.postal_code.or row.postal_code,
    latitude := d.latitude.or row.latitude,
    longitude := d.longitude.or row.longitude,
    star_rating := d.star_rating.getD row.star_rating,
    avg_rating := d.avg_rating.getD row.avg_rating,
    total_reviews := d.total_reviews.getD row.total_reviews }

/-- Delete-then-insert replacement of one hotel's amenity/image child sets. -/
def replaceChildren (store : RStore) (hid : Nat) (ams : List AmenityRow)
    (ims : List ImageRow) : RStore :=
  { store with
    amenities := store.amenities.filter (fun p => !(p.1 == hid)) ++
      ams.map (fun a => (hid, a)),
    images := store.images.filter (fun p => !(p.1 == hid)) ++
      ims.map (fun i => (hid, i)) }

/-- The update branch of `save_hotel_details`: write the non-`None` fields
onto the existing row, then replace its children, commit, and return it. -/
def updateHotelPath (store : RStore) (ex : HotelRow) (d : HotelData)
    (ams : List AmenityRow) (ims : List ImageRow) : HotelRow × RStore :=
  let updated := applyHotelUpdate ex d
  let store1 := { store with
    hotels := store.hotels.map (fun h => if h.hid == ex.hid then updated else h) }
  (updated, replaceChildren store1 ex.hid ams ims)

/-- `Hotel(**hotel_data)` on the insert branch: column defaults fill the
missing values (string `NULL`s stay `None`; `name` is `NOT NULL`). -/
def newHotelRow (newId : Nat) (d : HotelData) : HotelRow :=
  { hid := newId, api_hotel_id := d.api_hotel_id, name := d.name.getD "",
    description := d.description, address := d.address, city := d.city,
    state := d.state, country := d.country, postal_code := d.postal_code,
    latitude := d.latitude, longitude := d.longitude,
    star_rating := d.star_rating.getD 3, avg_rating := d.avg_rating.getD 0,
    total_reviews := d.total_reviews.getD 0 }

/-- The possible outcomes of the `INSERT` flush, as seen by the `except
IntegrityError` handler: `dupEntry` and `primaryKey` record whether `str(e)`
contains `"Duplicate entry"` and `"PRIMARY"` respectively. -/
inductive InsertOutcome where
  | ok : InsertOutcome
  | integrityError (dupEntry : Bool) (primaryKey : Bool) : InsertOutcome
deriving Repr, DecidableEq

/-- `HotelRepository.save_hotel_details`.  `raced` is the row a concurrent
writer committed between the initial read and our insert (what the re-read
inside the `IntegrityError` handler can see); `db.rollback()` discards the
failed insert before the re-read. -/
def save_hotel_details (store : RStore) (newId : Nat) (hotel_data : HotelData)
    (amenities : List AmenityRow) (images : List ImageRow)
    (insertOutcome : InsertOutcome) (raced : Option HotelRow) :
    Except String (HotelRow × RStore) :=
  match findByApiId store.hotels hotel_data.api_hotel_id with
  | some existing_hotel =>
    .ok (updateHotelPath store existing_hotel hotel_data amenities images)
  | none =>
    match insertOutcome with
    | .ok =>
      let hotel := newHotelRow newId hotel_data
      .ok (hotel,
        { store with
          hotels := store.hotels ++ [hotel],
          amenities := store.amenities ++ amenities.map (fun a => (newId, a)),
          images := store.images ++ images.map (fun i => (newId, i)) })
    | .integrityError dupEntry primaryKey =>
      if dupEntry && primaryKey then
        let visible := store.hotels ++ raced.toList
        match findByApiId visible hotel_data.api_hotel_id with
        | some existing_hotel =>
          .ok (updateHotelPath { store with hotels := visible } existing_hotel
            hotel_data amenities images)
        | none => .error "IntegrityError"
      else .error "IntegrityError"

/-! ## C8: duplicate-key race resolution -/

/-- An incoming record with external id "X1" and most fields absent. -/
def raceData : HotelData :=
  { api_hotel_id := some "X1", name := some "Hotel X", description := none,
    address := none, city := none, state := none, country := none,
    postal_code := none, latitude := none, longitude := none,
    star_rating := none, avg_rating := none, total_reviews := none }

/-- The row a concurrent writer committed for the same external id. -/
def racedRow : HotelRow :=
  { hid := 1, api_hotel_id := some "X1", name := "Hotel X", description := none,
    address := none, city := none, state := none, country := none,
    postal_code := none, latitude := none, longitude := none,
    star_rating := 3, avg_rating := 0, total_reviews := 0 }

/-- C8 counterexample: a duplicate-key integrity error whose message does not
contain "PRIMARY" (e.g. MySQL's message for the unique `api_hotel_id` index,
`Duplicate entry 'X1' for key 'hotels.api_hotel_id'`) is re-raised instead of
falling back to the update path, so the conflict does surface as an error —
the handler requires both "Duplicate entry" and "PRIMARY" in `str(e)`. -/
theorem save_hotel_details_race_counterexample :
    save_hotel_details ⟨[], [], []⟩ 2 raceData [] []
      (.integrityError true false) (some racedRow) = .error "IntegrityError" := rfl

/-- C8 (amended): when the insert path raises an integrity error whose message
marks a primary-key duplicate (both "Duplicate entry" and "PRIMARY" present)
and the re-read by external identifier finds the record, `save_hotel_details`
falls back to the update path and returns the stored record with no error;
any other integrity error, or a primary-key duplicate whose re-read finds
nothing, is re-raised. -/
theorem save_hotel_details_race_spec (store : RStore) (newId : Nat)
    (d : HotelData) (ams : List AmenityRow) (ims : List ImageRow)
    (raced : HotelRow)
    (hmiss : findByApiId store.hotels d.api_hotel_id = none)
    (hape : raced.api_hotel_id = d.api_hotel_id) :
    (save_hotel_details store newId d ams ims (.integrityError true true) (some raced) =
      .ok (updateHotelPath { store with hotels := store.hotels ++ [raced] }
        raced d ams ims)) ∧
    (∀ dup prim : Bool, (dup && prim) = false →
      save_hotel_details store newId d ams ims (.integrityError dup prim) (some raced) =
        .error "IntegrityError") ∧
    (save_hotel_details store newId d ams ims (.integrityError true true) none =
      .error "IntegrityError") := by
  have hfind : findByApiId (store.hotels ++ [raced]) d.api_hotel_id = some raced := by
    unfold findByApiId at hmiss ⊢
    rw [List.find?_append, hmiss]
    simp [hape]
  refine ⟨?_, ?_, ?_⟩
  · simp only [save_hotel_details, hmiss, Option.toList]
    rw [hfind]
    simp
  · intro dup prim hfalse
    simp [save_hotel_details, hmiss, hfalse]
  · simp [save_hotel_details, hmiss, Option.toList, List.append_nil]

/-- Witness for C8: the primary-key-duplicate fallback at a concrete input
returns the concurrently inserted row, updated, with no error. -/
theorem save_hotel_details_race_spec_witness :
    save_hotel_details ⟨[], [], []⟩ 2 raceData [] []
      (.integrityError true true) (some racedRow) =
      .ok (updateHotelPath ⟨[racedRow], [], []⟩ racedRow raceData [] []) :=
  (save_hotel_details_race_spec ⟨[], [], []⟩ 2 raceData [] [] racedRow rfl rfl).1

/-! ## C10: None-valued fields never clear stored values on update -/

/-- C10: on the update path of the upsert, a mapped field whose incoming value
is `None` leaves the stored field unchanged; only non-`None` incoming values
are written; the external identifier and the primary key are never written. -/
theorem applyHotelUpdate_frame (row : HotelRow) (d : HotelData) :
    (applyHotelUpdate row d).api_hotel_id = row.api_hotel_id ∧
    (applyHotelUpdate row d).hid = row.hid ∧
    (d.name = none → (applyHotelUpdate row d).name = row.name) ∧
    (∀ v, d.name = some v → (applyHotelUpdate row d).name = v) ∧
    (d.description = none → (applyHotelUpdate row d).description = row.description) ∧
    (∀ v, d.description = some v → (applyHotelUpdate row d).description = some v) ∧
    (d.address = none → (applyHotelUpdate row d).address = row.address) ∧
    (∀ v, d.address = some v → (applyHotelUpdate row d).address = some v) ∧
    (d.city = none → (applyHotelUpdate row d).city = row.city) ∧
    (∀ v, d.city = some v → (applyHotelUpdate row d).city = some v) ∧
    (d.state = none → (applyHotelUpdate row d).state = row.state) ∧
    (∀ v, d.state = some v → (applyHotelUpdate row d).state = some v) ∧
    (d.country = none → (applyHotelUpdate row d).country = row.country) ∧
    (∀ v, d.country = some v → (applyHotelUpdate row d).country = some v) ∧
    (d.postal_code = none → (applyHotelUpdate row d).postal_code = row.postal_code) ∧
    (∀ v, d.postal_code = some v → (applyHotelUpdate row d).postal_code = some v) ∧
    (d.latitude = none → (applyHotelUpdate row d).latitude = row.latitude) ∧
    (∀ v, d.latitude = some v → (applyHotelUpdate row d).latitude = some v) ∧
    (d.longitude = none → (applyHotelUpdate row d).longitude = row.longitude) ∧
    (∀ v, d.longitude = some v → (applyHotelUpdate row d).longitude = some v) ∧
    (d.star_rating = none → (applyHotelUpdate row d).star_rating = row.star_rating) ∧
    (∀ v, d.star_rating = some v → (applyHotelUpdate row d).star_rating = v) ∧
    (d.avg_rating = none → (applyHotelUpdate row d).avg_rating = row.avg_rating) ∧
    (∀ v, d.avg_rating = some v → (applyHotelUpdate row d).avg_rating = v) ∧
    (d.total_reviews = none → (applyHotelUpdate row d).total_reviews = row.total_reviews) ∧
    (∀ v, d.total_reviews = some v → (applyHotelUpdate row d).total_reviews = v) := by
  refine ⟨rfl, rfl, ?_, ?_, ?_, ?_, ?_, ?_, ?_, ?_, ?_, ?_, ?_, ?_, ?_, ?_,
    ?_, ?_, ?_, ?_, ?_, ?_, ?_, ?_, ?_, ?_⟩ <;>
  first
  | (intro v h
     simp [applyHotelUpdate, h])
  | (intro h
     simp [applyHotelUpdate, h])

/-- Witness for C10: an update whose payload drops `description` to `None`
but sets `city` preserves the stored description and writes the new city. -/
theorem applyHotelUpdate_frame_witness :
    (applyHotelUpdate racedRow
      { raceData with description := none, city := some "Austin" }).description =
        racedRow.description ∧
    (applyHotelUpdate racedRow
      { raceData with description := none, city := some "Austin" }).city =
        some "Austin" := by
  obtain ⟨-, -, -, -, hdesc, -, -, -, -, hcity, -⟩ :=
    applyHotelUpdate_frame racedRow
      { raceData with description := none, city := some "Austin" }
  exact ⟨hdesc rfl, hcity "Austin" rfl⟩

/-! ## The partition refresh executor (`hotel_refresh_service.py`)

The refresh path writes `str(hotel_data["id"])` — the external identifier —
into `Hotel.id`, and keys all child rows by it, so hotel rows here are keyed
by a string id.  The SQLAlchemy session is modelled explicitly: statements
issued between commits are pending inside the open transaction; `commit()`
applies them all, and a failed flush rolls the transaction back and leaves
the session unusable (every later operation raises) until an explicit
`rollback()` — which this code never performs. -/

/-- ASCII lowercasing, as `str.lower()` is used on ASCII keyword data here. -/
def lowerChar (c : Char) : Char :=
  if 'A' ≤ c ∧ c ≤ 'Z' then Char.ofNat (c.toNat + 32) else c

def lowerStr (s : String) : String := String.mk (s.data.map lowerChar)

/-- Python substring containment `needle in hay`. -/
def subList (n : List Char) : List Char → Bool
  | [] => n.isEmpty
  | c :: rest => n.isPrefixOf (c :: rest) || subList n rest

def strIn (needle hay : String) : Bool := subList needle.data hay.data

/-- `HotelRefreshService._categorize_amenity`: keyword buckets over the
lowercased amenity name. -/
def _categorize_amenity (amenity_name : String) : String :=
  let al := lowerStr amenity_name
  let has := fun (kw : String) => strIn kw al
  if ["wifi", "internet", "television", "tv", "cable", "satellite"].any has then
    "technology"
  else if ["pool", "spa", "fitness", "gym", "sauna", "jacuzzi"].any has then
    "recreation"
  else if ["restaurant", "bar", "cafe", "dining", "breakfast", "food"].any has then
    "dining"
  else if ["parking", "valet", "garage", "shuttle", "transport"].any has then
    "transportation"
  else if ["business", "meeting", "conference", "convention"].any has then
    "business"
  else if ["laundry", "dry", "cleaning", "housekeeping"].any has then
    "services"
  else if ["pet", "animal", "dog", "cat"].any has then
    "pets"
  else if ["accessibility", "wheelchair", "disabled", "ada"].any has then
    "accessibility"
  else
    "general"

/-- A stored hotel row on the refresh path (primary key = external id). -/
structure RefHotelRow where
  id : String
  name : String
  description : String
  address : String
  city : String
  state : String
  country : String
  postal_code : String
  latitude : Int
  longitude : Int
  star_rating : Int
  avg_rating : Int
  total_reviews : Int
  updated_at : Nat
deriving Repr, DecidableEq

/-- `mapped_hotel_data` of `_process_single_hotel`: every field is built with
a default except `name`, which is `hotel_data.get("hotelName")` and can be
`None`. -/
structure MappedHotel where
  id : String
  name : Option String
  description : String
  address : String
  city : String
  state : String
  country : String
  postal_code : String
  latitude : Int
  longitude : Int
  star_rating : Int
  avg_rating : Int
  total_reviews : Int
deriving Repr, DecidableEq

/-- The store the refresh path writes to. -/
structure RefStore where
  hotels : List RefHotelRow
  amenities : List (String × AmenityRow)
  images : List (String × ImageRow)
deriving Repr, DecidableEq

/-- The SQL statements a single-hotel upsert issues inside the transaction. -/
inductive PendOp where
  | updateHotel (id : String) (m : MappedHotel) (now : Nat)
  | insertHotel (m : MappedHotel) (now : Nat)
  | deleteAmenities (hid : String)
  | deleteImages (hid : String)
  | insertAmenity (hid : String) (a : AmenityRow)
  | insertImage (hid : String) (i : ImageRow)
deriving Repr, DecidableEq

/-- Whether a statement passes the DB constraints at flush time:
`hotels.name` is NOT NULL, `hotel_amenities.amenity_name` is `String(100)`,
`hotel_images.image` is `String(500)`. -/
def opValid : PendOp → Bool
  | .insertHotel m _ => m.name.isSome
  | .insertAmenity _ a => a.amenity_name.length ≤ 100
  | .insertImage _ i => i.image.length ≤ 500
  | _ => true

/-- The setattr loop of the refresh update path (`key != 'id'`, `None`
skipped — only `name` can be `None` in `mapped_hotel_data`) followed by the
explicit `updated_at` write. -/
def applyMappedUpdate (now : Nat) (row : RefHotelRow) (m : MappedHotel) : RefHotelRow :=
  { row with
    name := m.name.getD row.name,
    description := m.description, address := m.address, city := m.city,
    state := m.state, country := m.country, postal_code := m.postal_code,
    latitude := m.latitude, longitude := m.longitude,
    star_rating := m.star_rating, avg_rating := m.avg_rating,
    total_reviews := m.total_reviews, updated_at := now }

/-- `Hotel(**mapped_hotel_data)` (a `None` name is rejected at flush, not
here; `updated_at` takes the column default). -/
def newRefRow (now : Nat) (m : MappedHotel) : RefHotelRow :=
  { id := m.id, name := m.name.getD "", description := m.description,
    address := m.address, city := m.city, state := m.state,
    country := m.country, postal_code := m.postal_code,
    latitude := m.latitude, longitude := m.longitude,
    star_rating := m.star_rating, avg_rating := m.avg_rating,
    total_reviews := m.total_reviews, updated_at := now }

def applyOp (st : RefStore) : PendOp → RefStore
  | .updateHotel id m now =>
    { st with hotels := st.hotels.map (fun h =>
        if h.id == id then applyMappedUpdate now h m else h) }
  | .insertHotel m now => { st with hotels := st.hotels ++ [newRefRow now m] }
  | .deleteAmenities hid =>
    { st with amenities := st.amenities.filter (fun p => !(p.1 == hid)) }
  | .deleteImages hid =>
    { st with images := st.images.filter (fun p => !(p.1 == hid)) }
  | .insertAmenity hid a => { st with amenities := st.amenities ++ [(hid, a)] }
  | .insertImage hid i => { st with images := st.images ++ [(hid, i)] }

/-- A SQLAlchemy session: the durable store, the statements pending in the
open transaction, and the poisoned state entered after a failed flush
(`PendingRollbackError` on any further use until `rollback()`). -/
structure DbSession where
  committed : RefStore
  pending : List PendOp
  poisoned : Bool
deriving Repr, DecidableEq

/-- `db.commit()`: flush and commit the transaction.  A constraint violation
makes the flush fail: SQLAlchemy rolls the transaction back (discarding all
its statements) and poisons the session. -/
def commitDb (s : DbSession) : Except String Unit × DbSession :=
  if s.poisoned then (.error "PendingRollbackError", s)
  else if s.pending.all opValid then
    (.ok (), { committed := s.pending.foldl applyOp s.committed,
               pending := [], poisoned := false })
  else
    (.error "IntegrityError", { committed := s.committed, pending := [],
                                poisoned := true })

/-- `db.flush()`: execute the pending statements inside the transaction
without committing; same failure behaviour as a commit-time flush. -/
def flushDb (s : DbSession) : Except String Unit × DbSession :=
  if s.poisoned then (.error "PendingRollbackError", s)
  else if s.pending.all opValid then (.ok (), s)
  else
    (.error "IntegrityError", { committed := s.committed, pending := [],
                                poisoned := true })

/-- `db.query(Hotel).filter(Hotel.id == ...).first()` (raises on a poisoned
session; at every use site the transaction has no pending statements). -/
def queryHotel (s : DbSession) (id : String) : Except String (Option RefHotelRow) :=
  if s.poisoned then .error "PendingRollbackError"
  else .ok (s.committed.hotels.find? (fun h => h.id == id))

/-- The upstream payload for one hotel, with the fields `_process_single_hotel`
reads (nested `address`/`reviews` structures flattened to the leaves the code
extracts; coordinates and ratings as scaled integers, see the header). -/
structure RawHotel where
  rid : Option String
  hotelName : Option String
  description : Option String
  addressLine1 : Option String
  cityName : Option String
  stateName : Option String
  countryName : Option String
  postalCode : Option String
  lat : Option Int
  lng : Option Int
  rating : Option Int
  reviewsRating : Option Int
  reviewsCount : Option Int
  facilities : List String
  image : Option String
deriving Repr, DecidableEq

/-- The mapping stage at the top of `_process_single_hotel` (pure: it runs
before any database access).  `str(hotel_data.get("id"))` of a missing id is
the string "None". -/
def mapHotel (h : RawHotel) : MappedHotel × List AmenityRow × List ImageRow :=
  let m : MappedHotel :=
    { id := h.rid.getD "None", name := h.hotelName,
      description := h.description.getD "", address := h.addressLine1.getD "",
      city := h.cityName.getD "", state := h.stateName.getD "",
      country := h.countryName.getD "", postal_code := h.postalCode.getD "",
      latitude := h.lat.getD 0, longitude := h.lng.getD 0,
      star_rating := h.rating.getD 0, avg_rating := h.reviewsRating.getD 0,
      total_reviews := h.reviewsCount.getD 0 }
  let amenities := h.facilities.filterMap (fun nm =>
    if nm = "" then none
    else some { amenity_name := nm, amenity_type := _categorize_amenity nm })
  let images := match h.image with
    | none => []
    | some img =>
      [{ image := img, caption := h.hotelName.getD "", is_primary := true,
         sort_order := 0 }]
  (m, amenities, images)

structure SingleResult where
  updated : Nat
  created : Nat
  amenities_updated : Nat
  images_updated : Nat
deriving Repr, DecidableEq

/-- `HotelRefreshService._process_single_hotel`: map, look up by external id,
then either update in place and replace the children, or insert the new row
(flushing for its id) and its children; one commit per hotel.  Exceptions
propagate to the caller (`raise e`) with no rollback. -/
def _process_single_hotel (s : DbSession) (hotel_data : RawHotel) (now : Nat) :
    Except String SingleResult × DbSession :=
  let (m, ams, ims) := mapHotel hotel_data
  match queryHotel s m.id with
  | .error e => (.error e, s)
  | .ok (some existing_hotel) =>
    let ops := [PendOp.updateHotel existing_hotel.id m now,
                PendOp.deleteAmenities existing_hotel.id] ++
      ams.map (PendOp.insertAmenity existing_hotel.id) ++
      [PendOp.deleteImages existing_hotel.id] ++
      ims.map (PendOp.insertImage existing_hotel.id)
    match commitDb { s with pending := s.pending ++ ops } with
    | (.ok _, s2) =>
      (.ok { updated := 1, created := 0, amenities_updated := ams.length,
             images_updated := ims.length }, s2)
    | (.error e, s2) => (.error e, s2)
  | .ok none =>
    match flushDb { s with pending := s.pending ++ [PendOp.insertHotel m now] } with
    | (.error e, s2) => (.error e, s2)
    | (.ok _, s2) =>
      let childOps := ams.map (PendOp.insertAmenity m.id) ++
        ims.map (PendOp.insertImage m.id)
      let s3 := { s2 with pending := s2.pending ++ childOps }
      match commitDb s3 with
      | (.ok _, s4) =>
        (.ok { updated := 0, created := 1, amenities_updated := ams.length,
               images_updated := ims.length }, s4)
      | (.error e, s4) => (.error e, s4)

structure BatchStats where
  processed : Nat
  updated : Nat
  created : Nat
  amenities_updated : Nat
  images_updated : Nat
  errors : List String
deriving Repr, DecidableEq

/-- One iteration of the `_process_hotel_batch` loop. -/
def batchStep (now : Nat) (acc : BatchStats × DbSession) (hd : RawHotel) :
    BatchStats × DbSession :=
  let (st, sess) := acc
  match _process_single_hotel sess hd now with
  | (.ok r, sess2) =>
    let st2 : BatchStats :=
      { processed := st.processed + 1, updated := st.updated + r.updated,
        created := st.created + r.created,
        amenities_updated := st.amenities_updated + r.amenities_updated,
        images_updated := st.images_updated + r.images_updated,
        errors := st.errors }
    (st2, sess2)
  | (.error e, sess2) =>
    let msg := "Error processing hotel " ++ hd.rid.getD "unknown" ++ ": " ++ e
    let st2 : BatchStats :=
      { processed := st.processed + 1, updated := st.updated,
        created := st.created, amenities_updated := st.amenities_updated,
        images_updated := st.images_updated, errors := st.errors ++ [msg] }
    (st2, sess2)

/-- `HotelRefreshService._process_hotel_batch`: a failing record is logged,
its error appended, and the loop continues — the record still counts as
processed. -/
def _process_hotel_batch (s : DbSession) (hotels_data : List RawHotel)
    (now : Nat) : BatchStats × DbSession :=
  hotels_data.foldl (batchStep now)
    ({ processed := 0, updated := 0, created := 0, amenities_updated := 0,
       images_updated := 0, errors := [] }, s)

/-- `str.replace(" ", "_")` over one-character patterns. -/
def replaceSpace (s : String) : String :=
  String.mk (s.data.map (fun c => if c = ' ' then '_' else c))

/-- The fallback table of `_get_city_coordinates` (coordinates are degrees
scaled by 10000). -/
def knownCoordinates : List (String × Int × Int) :=
  [("New York", 407128, -740060), ("Los Angeles", 340522, -1182437),
   ("Chicago", 418781, -876298), ("Miami", 257617, -801918),
   ("Las Vegas", 361699, -1151398), ("San Francisco", 377749, -1224194),
   ("Boston", 423601, -710589), ("Washington", 389072, -770369),
   ("Seattle", 476062, -1223321), ("Atlanta", 337490, -843880),
   ("Dallas", 327767, -967970), ("Houston", 297604, -953698),
   ("Phoenix", 334484, -1120740), ("Denver", 397392, -1049903),
   ("Nashville", 361627, -867816), ("Austin", 302672, -977431),
   ("Portland", 455152, -1226784), ("San Diego", 327157, -1171611),
   ("Orlando", 285383, -813792), ("Mexico City", 194326, -991332),
   ("Cancun", 211619, -868515), ("Guadalajara", 206597, -1033496),
   ("Monterrey", 256866, -1003161), ("Tijuana", 325149, -1170382),
   ("Puebla", 190414, -982063), ("Merida", 209674, -895926),
   ("Toluca", 192925, -996569), ("León", 211228, -1017065),
   ("Juárez", 316904, -1064225)]

/-- `HotelRefreshService._get_city_coordinates`: try the autosuggest call
(modelled by the oracle, covering the request, the await and the response
parse), fall back to the known-coordinates table matched by lowercase
substring, then to (0, 0).  The blanket handler makes the function total. -/
def _get_city_coordinates (autosuggest : String → Option (Int × Int))
    (city_name state country : String) : Int × Int :=
  let search_text := city_name ++
    (if state ≠ "" then ", " ++ state else "") ++
    (if country ≠ "" then ", " ++ country else "")
  match autosuggest search_text with
  | some latlng => latlng
  | none =>
    match knownCoordinates.find?
        (fun kc => strIn (lowerStr kc.1) (lowerStr city_name)) with
    | some kc => kc.2
    | none => (0, 0)

/-- The search request `refresh_hotels_for_city` builds: fixed future date
window 2024-12-01 → 2024-12-02 and one occupancy of 2 adults, 0 children. -/
structure SearchReq where
  place_id : String
  lat : Int
  lng : Int
  checkin_date : String
  checkout_date : String
  adults : Nat
  childs : Nat
  country_of_residence : String
deriving Repr, DecidableEq

/-- `hotels_data[i:i+batch_size]` slices of the batching loop. -/
def chunkList (batch_size : Nat) : List RawHotel → List (List RawHotel)
  | [] => []
  | a :: rest =>
    if h : batch_size = 0 then []
    else ((a :: rest).take batch_size) :: chunkList batch_size (rest.drop (batch_size - 1))
termination_by l => l.length
decreasing_by
  simp [List.length_drop]
  omega

/-- The refresh statistics dictionary assembled by `refresh_hotels_for_city`. -/
structure RefreshStats where
  city_name : String
  state : String
  country : String
  start_time : Nat
  hotels_processed : Nat
  hotels_updated : Nat
  hotels_created : Nat
  amenities_updated : Nat
  images_updated : Nat
  errors : List String
  status : String
  message : Option String
  error_message : Option String
deriving Repr, DecidableEq

/-- The `try` body of `refresh_hotels_for_city`.  The `place_id` f-string on
the source's line 160 reads the name `city`, which is not defined anywhere in
scope (the parameter is `city_name`), so evaluating it raises
`NameError: name city is not defined` before the search request exists; the
remainder of the body is translated after that raise. -/
def refreshBody (autosuggest : String → Option (Int × Int))
    (api : SearchReq → List RawHotel) (batch_size : Nat) (s : DbSession)
    (city_name state country : String) (now : Nat)
    (base : RefreshStats) : Except String (RefreshStats × DbSession) := do
  let latlng := _get_city_coordinates autosuggest city_name state country
  let place_id ← (Except.error "NameError: name city is not defined" :
    Except String String)
  let req : SearchReq :=
    { place_id := place_id, lat := latlng.1, lng := latlng.2,
      checkin_date := "2024-12-01", checkout_date := "2024-12-02",
      adults := 2, childs := 0, country_of_residence := "US" }
  let hotels_data := api req
  if hotels_data.isEmpty then
    let noneFound := { base with status := "completed", message := some "No hotels found" }
    return (noneFound, s)
  else
    let batches := chunkList batch_size hotels_data
    let folded := batches.foldl
      (fun (acc : RefreshStats × DbSession) batch =>
        let (st, sess) := acc
        let (br, sess2) := _process_hotel_batch sess batch now
        let st2 : RefreshStats :=
          { st with hotels_processed := st.hotels_processed + br.processed,
                    hotels_updated := st.hotels_updated + br.updated,
                    hotels_created := st.hotels_created + br.created,
                    amenities_updated := st.amenities_updated + br.amenities_updated,
                    images_updated := st.images_updated + br.images_updated,
                    errors := st.errors ++ br.errors }
        (st2, sess2))
      (base, s)
    return ({ folded.1 with status := "completed" }, folded.2)

/-- `HotelRefreshService.refresh_hotels_for_city`: builds the in-progress
statistics snapshot, runs the body, and on any exception records status
"error" with the message — it never raises past this boundary. -/
def refresh_hotels_for_city (autosuggest : String → Option (Int × Int))
    (api : SearchReq → List RawHotel) (batch_size : Nat) (s : DbSession)
    (city_name state country : String) (now : Nat) :
    RefreshStats × DbSession :=
  let base : RefreshStats :=
    { city_name := city_name, state := state, country := country,
      start_time := now, hotels_processed := 0, hotels_updated := 0,
      hotels_created := 0, amenities_updated := 0, images_updated := 0,
      errors := [], status := "in_progress", message := none,
      error_message := none }
  match refreshBody autosuggest api batch_size s city_name state country now base with
  | .ok r => r
  | .error e =>
    let msg := "Error refreshing hotels for " ++ city_name ++ ": " ++ e
    let errStats := { base with status := "error", error_message := some e, errors := [msg] }
    (errStats, s)

/-! ## The scheduler's per-job wrapper (`scheduler_service.py`) -/

/-- One `job_stats[job_id]` entry (the success-path entry carries further
counters; these fields are the ones the claims read). -/
structure JobStats where
  last_execution : Nat
  hotels_processed : Nat
  status : String
  error_message : Option String
  demand_level : String
deriving Repr, DecidableEq

/-- Python dict assignment `job_stats[job_id] = v`. -/
def setJob (js : List (String × JobStats)) (k : String) (v : JobStats) :
    List (String × JobStats) :=
  if js.any (fun p => p.1 == k) then
    js.map (fun p => if p.1 == k then (k, v) else p)
  else js ++ [(k, v)]

def lookupJob (js : List (String × JobStats)) (k : String) : Option JobStats :=
  (js.find? (fun p => p.1 == k)).map (fun p => p.2)

/-- `f"refresh_hotels_{city_name}_{state}_{country}".replace(" ", "_").lower()`. -/
def jobId (city_name state country : String) : String :=
  lowerStr (replaceSpace
    ("refresh_hotels_" ++ city_name ++ "_" ++ state ++ "_" ++ country))

/-- `HotelSchedulerService._refresh_hotels_for_city`: obtain a session
(`next(get_db())`, the only fallible step — `refresh_hotels_for_city` never
raises), run the refresh, and record the outcome in `job_stats`; any
exception is caught and recorded as an error entry instead of propagating to
the scheduler loop. -/
def _refresh_hotels_for_city_job (autosuggest : String → Option (Int × Int))
    (api : SearchReq → List RawHotel) (batch_size : Nat)
    (getDb : Except String DbSession) (job_stats : List (String × JobStats))
    (city_name state country demand_level : String) (now : Nat) :
    List (String × JobStats) :=
  let job_id := jobId city_name state country
  match getDb with
  | .error e =>
    setJob job_stats job_id
      { last_execution := now, hotels_processed := 0, status := "error",
        error_message := some e, demand_level := demand_level }
  | .ok db =>
    let refresh_result :=
      (refresh_hotels_for_city autosuggest api batch_size db city_name state
        country now).1
    setJob job_stats job_id
      { last_execution := now,
        hotels_processed := refresh_result.hotels_processed,
        status := refresh_result.status,
        error_message := refresh_result.error_message,
        demand_level := demand_level }

/-! ## C1: the refresh cycle (code bug: the undefined name `city`) -/

/-- C1 (evaluating the code at its failing input): for every city and every
upstream behaviour, `refresh_hotels_for_city` raises `NameError` at the
`place_id` f-string — which reads the undefined name `city` instead of the
parameter `city_name` — before the Inventory Source is ever called; the
blanket handler turns this into a snapshot with status "error" and
`hotels_processed = 0`, so no call ever completes with status "completed". -/
theorem refresh_hotels_for_city_name_error
    (autosuggest : String → Option (Int × Int)) (api : SearchReq → List RawHotel)
    (batch_size : Nat) (s : DbSession) (city_name state country : String)
    (now : Nat) :
    (refresh_hotels_for_city autosuggest api batch_size s city_name state
        country now).1.status = "error" ∧
    (refresh_hotels_for_city autosuggest api batch_size s city_name state
        country now).1.error_message = some "NameError: name city is not defined" ∧
    (refresh_hotels_for_city autosuggest api batch_size s city_name state
        country now).1.hotels_processed = 0 ∧
    (refresh_hotels_for_city autosuggest api batch_size s city_name state
        country now).2 = s :=
  ⟨rfl, rfl, rfl, rfl⟩

/-! ## C2: refresh never raises; the scheduler wrapper records failures -/

lemma lookupJob_map_replace (js : List (String × JobStats)) (k : String)
    (v : JobStats) (hany : js.any (fun p => p.1 == k) = true) :
    lookupJob (js.map (fun p => if p.1 == k then (k, v) else p)) k = some v := by
  induction js with
  | nil => simp at hany
  | cons p rest ih =>
    rw [List.map_cons]
    by_cases hp : (p.1 == k) = true
    · rw [if_pos hp]
      unfold lookupJob
      rw [List.find?_cons_of_pos _ (by simp)]
      rfl
    · rw [if_neg hp]
      have hany' : rest.any (fun q => q.1 == k) = true := by
        rw [List.any_cons] at hany
        have hpf : (p.1 == k) = false := Bool.eq_false_iff.mpr hp
        simpa [hpf] using hany
      unfold lookupJob at ih ⊢
      have hstep : List.find? (fun q => q.1 == k)
          (p :: List.map (fun q => if q.1 == k then (k, v) else q) rest) =
          List.find? (fun q => q.1 == k)
            (List.map (fun q => if q.1 == k then (k, v) else q) rest) :=
        List.find?_cons_of_neg _ hp
      rw [hstep]
      exact ih hany'

lemma lookupJob_append_new (js : List (String × JobStats)) (k : String)
    (v : JobStats) (hnone : js.any (fun p => p.1 == k) = false) :
    lookupJob (js ++ [(k, v)]) k = some v := by
  unfold lookupJob
  rw [List.find?_append]
  have hfn : js.find? (fun p => p.1 == k) = none := by
    rw [List.find?_eq_none]
    intro x hx
    simp only [List.any_eq_false] at hnone
    simpa using hnone x hx
  rw [hfn]
  have hstep : List.find? (fun q => q.1 == k) [(k, v)] = some (k, v) :=
    List.find?_cons_of_pos _ (by simp)
  rw [Option.none_or, hstep]
  rfl

lemma lookupJob_setJob (js : List (String × JobStats)) (k : String)
    (v : JobStats) : lookupJob (setJob js k v) k = some v := by
  unfold setJob
  by_cases hany : js.any (fun p => p.1 == k) = true
  · rw [if_pos hany]
    exact lookupJob_map_replace js k v hany
  · rw [if_neg hany]
    exact lookupJob_append_new js k v (Bool.eq_false_iff.mpr hany)

/-- The in-progress snapshot `refresh_hotels_for_city` starts from. -/
def mkBaseStats (city_name state country : String) (now : Nat) : RefreshStats :=
  { city_name := city_name, state := state, country := country,
    start_time := now, hotels_processed := 0, hotels_updated := 0,
    hotels_created := 0, amenities_updated := 0, images_updated := 0,
    errors := [], status := "in_progress", message := none,
    error_message := none }

/-- C2: `refresh_hotels_for_city` never lets an exception escape — it always
returns a snapshot, with status "completed" or "error", and when its body
raises the snapshot records status "error" with the message; the scheduler's
per-job wrapper likewise catches the failure of its fallible step
(`next(get_db())`) and records an error entry in `job_stats` under the job id
instead of propagating, and on the non-raising path it records the refresh
outcome. -/
theorem refresh_error_handling_spec
    (autosuggest : String → Option (Int × Int)) (api : SearchReq → List RawHotel)
    (batch_size : Nat) (s : DbSession) (cn st co dl : String) (now : Nat)
    (getDb : Except String DbSession) (job_stats : List (String × JobStats)) :
    ((refresh_hotels_for_city autosuggest api batch_size s cn st co now).1.status
        = "completed" ∨
     (refresh_hotels_for_city autosuggest api batch_size s cn st co now).1.status
        = "error") ∧
    (∀ e, refreshBody autosuggest api batch_size s cn st co now
        (mkBaseStats cn st co now) = .error e →
      (refresh_hotels_for_city autosuggest api batch_size s cn st co now).1.status
          = "error" ∧
      (refresh_hotels_for_city autosuggest api batch_size s cn st co
          now).1.error_message = some e) ∧
    (∀ e, getDb = .error e →
      lookupJob (_refresh_hotels_for_city_job autosuggest api batch_size getDb
          job_stats cn st co dl now) (jobId cn st co) =
        some { last_execution := now, hotels_processed := 0, status := "error",
               error_message := some e, demand_level := dl }) ∧
    (∀ db, getDb = .ok db →
      lookupJob (_refresh_hotels_for_city_job autosuggest api batch_size getDb
          job_stats cn st co dl now) (jobId cn st co) =
        some { last_execution := now,
               hotels_processed := (refresh_hotels_for_city autosuggest api
                 batch_size db cn st co now).1.hotels_processed,
               status := (refresh_hotels_for_city autosuggest api batch_size db
                 cn st co now).1.status,
               error_message := (refresh_hotels_for_city autosuggest api
                 batch_size db cn st co now).1.error_message,
               demand_level := dl }) := by
  refine ⟨Or.inr rfl, ?_, ?_, ?_⟩
  · intro e he
    have hbody : refreshBody autosuggest api batch_size s cn st co now
        (mkBaseStats cn st co now) = .error e := he
    constructor
    · simp [refresh_hotels_for_city]
      rw [show (refreshBody autosuggest api batch_size s cn st co now
        { city_name := cn, state := st, country := co, start_time := now,
          hotels_processed := 0, hotels_updated := 0, hotels_created := 0,
          amenities_updated := 0, images_updated := 0, errors := [],
          status := "in_progress", message := none, error_message := none }) =
        .error e from hbody]
    · simp [refresh_hotels_for_city]
      rw [show (refreshBody autosuggest api batch_size s cn st co now
        { city_name := cn, state := st, country := co, start_time := now,
          hotels_processed := 0, hotels_updated := 0, hotels_created := 0,
          amenities_updated := 0, images_updated := 0, errors := [],
          status := "in_progress", message := none, error_message := none }) =
        .error e from hbody]
  · intro e he
    simp only [_refresh_hotels_for_city_job, he]
    exact lookupJob_setJob job_stats (jobId cn st co) _
  · intro db hdb
    simp only [_refresh_hotels_for_city_job, hdb]
    exact lookupJob_setJob job_stats (jobId cn st co) _

/-- The fresh session `next(get_db())` yields. -/
def emptySession : DbSession :=
  { committed := { hotels := [], amenities := [], images := [] },
    pending := [], poisoned := false }

/-- Witness for C2: when `next(get_db())` raises, the wrapper records the
error entry under the job id. -/
theorem refresh_error_handling_spec_witness :
    lookupJob (_refresh_hotels_for_city_job (fun _ => none) (fun _ => [])
        50 (.error "db down") [] "Miami" "" "" "high" 0) (jobId "Miami" "" "") =
      some { last_execution := 0, hotels_processed := 0, status := "error",
             error_message := some "db down", demand_level := "high" } :=
  (refresh_error_handling_spec (fun _ => none) (fun _ => []) 50 emptySession
    "Miami" "" "" "high" 0 (.error "db down") []).2.2.1 "db down" rfl

/-! ## C9: per-record failure isolation in a batch -/

/-- The per-record outcomes of a batch run, in order (the same step function
the batch loop folds). -/
def batchTrace (s : DbSession) (now : Nat) :
    List RawHotel → List (Except String SingleResult)
  | [] => []
  | hd :: rest =>
    let pr := _process_single_hotel s hd now
    pr.1 :: batchTrace pr.2 now rest

/-- The session after a batch run. -/
def batchFinal (s : DbSession) (now : Nat) : List RawHotel → DbSession
  | [] => s
  | hd :: rest => batchFinal (_process_single_hotel s hd now).2 now rest

def isErr : Except String SingleResult → Bool
  | .error _ => true
  | .ok _ => false

def okUpdated : Except String SingleResult → Nat
  | .ok r => r.updated
  | .error _ => 0

def okCreated : Except String SingleResult → Nat
  | .ok r => r.created
  | .error _ => 0

def okAms : Except String SingleResult → Nat
  | .ok r => r.amenities_updated
  | .error _ => 0

def okIms : Except String SingleResult → Nat
  | .ok r => r.images_updated
  | .error _ => 0

lemma batchTrace_length (now : Nat) : ∀ (batch : List RawHotel) (s : DbSession),
    (batchTrace s now batch).length = batch.length := by
  intro batch
  induction batch with
  | nil => intro s; rfl
  | cons hd rest ih =>
    intro s
    simp [batchTrace, ih]

lemma batch_fold_components (now : Nat) :
    ∀ (batch : List RawHotel) (st0 : BatchStats) (s : DbSession),
      ((batch.foldl (batchStep now) (st0, s)).1.processed =
        st0.processed + batch.length) ∧
      ((batch.foldl (batchStep now) (st0, s)).1.errors.length =
        st0.errors.length + ((batchTrace s now batch).filter isErr).length) ∧
      ((batch.foldl (batchStep now) (st0, s)).1.updated =
        st0.updated + ((batchTrace s now batch).map okUpdated).sum) ∧
      ((batch.foldl (batchStep now) (st0, s)).1.created =
        st0.created + ((batchTrace s now batch).map okCreated).sum) ∧
      ((batch.foldl (batchStep now) (st0, s)).1.amenities_updated =
        st0.amenities_updated + ((batchTrace s now batch).map okAms).sum) ∧
      ((batch.foldl (batchStep now) (st0, s)).1.images_updated =
        st0.images_updated + ((batchTrace s now batch).map okIms).sum) ∧
      ((batch.foldl (batchStep now) (st0, s)).2 = batchFinal s now batch) := by
  intro batch
  induction batch with
  | nil =>
    intro st0 s
    simp [batchTrace, batchFinal]
  | cons hd rest ih =>
    intro st0 s
    cases hps : _process_single_hotel s hd now with
    | mk r s2 =>
      have htr : batchTrace s now (hd :: rest) = r :: batchTrace s2 now rest := by
        simp [batchTrace, hps]
      have hfin : batchFinal s now (hd :: rest) = batchFinal s2 now rest := by
        simp [batchFinal, hps]
      cases r with
      | ok v =>
        have hstep : batchStep now (st0, s) hd =
            ({ processed := st0.processed + 1, updated := st0.updated + v.updated,
               created := st0.created + v.created,
               amenities_updated := st0.amenities_updated + v.amenities_updated,
               images_updated := st0.images_updated + v.images_updated,
               errors := st0.errors }, s2) := by
          simp [batchStep, hps]
        rw [List.foldl_cons, hstep, htr, hfin]
        obtain ⟨h1, h2, h3, h4, h5, h6, h7⟩ := ih _ s2
        refine ⟨?_, ?_, ?_, ?_, ?_, ?_, h7⟩
        · rw [h1]; simp; omega
        · rw [h2]; simp [isErr]
        · rw [h3]; simp [okUpdated]; omega
        · rw [h4]; simp [okCreated]; omega
        · rw [h5]; simp [okAms]; omega
        · rw [h6]; simp [okIms]; omega
      | error e =>
        have hstep : batchStep now (st0, s) hd =
            ({ processed := st0.processed + 1, updated := st0.updated,
               created := st0.created,
               amenities_updated := st0.amenities_updated,
               images_updated := st0.images_updated,
               errors := st0.errors ++
                 ["Error processing hotel " ++ hd.rid.getD "unknown" ++ ": " ++ e] },
             s2) := by
          simp [batchStep, hps]
        rw [List.foldl_cons, hstep, htr, hfin]
        obtain ⟨h1, h2, h3, h4, h5, h6, h7⟩ := ih _ s2
        refine ⟨?_, ?_, ?_, ?_, ?_, ?_, h7⟩
        · rw [h1]; simp; omega
        · rw [h2]; simp [isErr]; omega
        · rw [h3]; simp [okUpdated]
        · rw [h4]; simp [okCreated]
        · rw [h5]; simp [okAms]
        · rw [h6]; simp [okIms]

/-- C9: in `_process_hotel_batch` a failing record appends exactly one error
to the batch error list and the loop continues — the processed count equals
the batch length (failures are still counted as processed), the error count
equals the number of failed records, and the updated/created/amenity/image
counters sum only the per-record results of the successful records. -/
theorem _process_hotel_batch_spec (s : DbSession) (batch : List RawHotel)
    (now : Nat) :
    (_process_hotel_batch s batch now).1.processed = batch.length ∧
    (_process_hotel_batch s batch now).1.errors.length =
      ((batchTrace s now batch).filter isErr).length ∧
    (_process_hotel_batch s batch now).1.updated =
      ((batchTrace s now batch).map okUpdated).sum ∧
    (_process_hotel_batch s batch now).1.created =
      ((batchTrace s now batch).map okCreated).sum ∧
    (_process_hotel_batch s batch now).1.amenities_updated =
      ((batchTrace s now batch).map okAms).sum ∧
    (_process_hotel_batch s batch now).1.images_updated =
      ((batchTrace s now batch).map okIms).sum ∧
    (batchTrace s now batch).length = batch.length := by
  obtain ⟨h1, h2, h3, h4, h5, h6, -⟩ := batch_fold_components now batch
    { processed := 0, updated := 0, created := 0, amenities_updated := 0,
      images_updated := 0, errors := [] } s
  unfold _process_hotel_batch
  refine ⟨?_, ?_, ?_, ?_, ?_, ?_, batchTrace_length now batch s⟩
  · rw [h1]
    simp
  · rw [h2]
    simp
  · rw [h3]
    simp
  · rw [h4]
    simp
  · rw [h5]
    simp
  · rw [h6]
    simp

/-! ## C3: per-hotel atomicity of the upsert -/

/-- The amenity child set the store holds for one hotel. -/
def amenitiesOf (st : RefStore) (hid : String) : List AmenityRow :=
  (st.amenities.filter (fun p => p.1 == hid)).map (fun p => p.2)

/-- The image child set the store holds for one hotel. -/
def imagesOf (st : RefStore) (hid : String) : List ImageRow :=
  (st.images.filter (fun p => p.1 == hid)).map (fun p => p.2)

/-- Store well-formedness (the foreign keys): a hotel id with no hotel row
has no child rows. -/
def wfStore (st : RefStore) : Prop :=
  ∀ hid, st.hotels.find? (fun h => h.id == hid) = none →
    amenitiesOf st hid = [] ∧ imagesOf st hid = []

lemma filter_del_self {α : Type} (l : List (String × α)) (hid : String) :
    (l.filter (fun p => !(p.1 == hid))).filter (fun p => p.1 == hid) = [] := by
  apply List.filter_eq_nil_iff.mpr
  intro p hp
  have hkeep := (List.mem_filter.mp hp).2
  simp only [Bool.not_eq_true'] at hkeep
  simp [hkeep]

lemma filter_key_del_other {α : Type} (l : List (String × α)) (hid hid' : String)
    (hne : hid' ≠ hid) :
    (l.filter (fun p => !(p.1 == hid))).filter (fun p => p.1 == hid') =
      l.filter (fun p => p.1 == hid') := by
  induction l with
  | nil => rfl
  | cons p rest ih =>
    by_cases hp : p.1 = hid
    · have h1 : (p.1 == hid) = true := by simp [hp]
      have h2 : (p.1 == hid') = false := by
        simp [hp]
        exact fun h => hne h.symm
      simp [List.filter_cons, h1, h2, ih]
    · have h1 : (p.1 == hid) = false := by simp [hp]
      by_cases hq : p.1 = hid'
      · have h2 : (p.1 == hid') = true := by simp [hq]
        simp [List.filter_cons, h1, h2, ih]
      · have h2 : (p.1 == hid') = false := by simp [hq]
        simp [List.filter_cons, h1, h2, ih]

lemma filter_key_map_self {α : Type} (xs : List α) (hid : String) :
    ((xs.map (fun a => (hid, a))).filter (fun p => p.1 == hid)) =
      xs.map (fun a => (hid, a)) := by
  apply List.filter_eq_self.mpr
  intro p hp
  rcases List.mem_map.mp hp with ⟨a, -, rfl⟩
  simp

lemma filter_key_map_other {α : Type} (xs : List α) (hid hid' : String)
    (hne : hid' ≠ hid) :
    ((xs.map (fun a => (hid, a))).filter (fun p => p.1 == hid')) = [] := by
  apply List.filter_eq_nil_iff.mpr
  intro p hp
  rcases List.mem_map.mp hp with ⟨a, -, rfl⟩
  simp
  exact fun h => hne h.symm

lemma foldl_insertAmenities (st : RefStore) (hid : String) (ams : List AmenityRow) :
    (ams.map (PendOp.insertAmenity hid)).foldl applyOp st =
      { st with amenities := st.amenities ++ ams.map (fun a => (hid, a)) } := by
  induction ams generalizing st with
  | nil => simp
  | cons a rest ih =>
    simp [List.map_cons, List.foldl_cons, applyOp, ih, List.append_assoc]

lemma foldl_insertImages (st : RefStore) (hid : String) (ims : List ImageRow) :
    (ims.map (PendOp.insertImage hid)).foldl applyOp st =
      { st with images := st.images ++ ims.map (fun i => (hid, i)) } := by
  induction ims generalizing st with
  | nil => simp
  | cons i rest ih =>
    simp [List.map_cons, List.foldl_cons, applyOp, ih, List.append_assoc]

/-- The combined store effect of the statements the update path issues. -/
lemma update_ops_effect (st : RefStore) (id0 : String) (m : MappedHotel)
    (now : Nat) (ams : List AmenityRow) (ims : List ImageRow) :
    (([PendOp.updateHotel id0 m now, PendOp.deleteAmenities id0] ++
      ams.map (PendOp.insertAmenity id0) ++ [PendOp.deleteImages id0] ++
      ims.map (PendOp.insertImage id0)).foldl applyOp st) =
      { hotels := st.hotels.map (fun h =>
          if h.id == id0 then applyMappedUpdate now h m else h),
        amenities := st.amenities.filter (fun p => !(p.1 == id0)) ++
          ams.map (fun a => (id0, a)),
        images := st.images.filter (fun p => !(p.1 == id0)) ++
          ims.map (fun i => (id0, i)) } := by
  simp [List.foldl_append, List.foldl_cons, List.foldl_nil, applyOp,
    foldl_insertAmenities, foldl_insertImages]

lemma childList_replace_self {α : Type} (l : List (String × α)) (id0 : String)
    (xs : List α) :
    (((l.filter (fun p => !(p.1 == id0)) ++ xs.map (fun a => (id0, a))).filter
      (fun p => p.1 == id0)).map (fun p => p.2)) = xs := by
  rw [List.filter_append, filter_del_self, filter_key_map_self]
  simp [List.map_map]

lemma childList_replace_other {α : Type} (l : List (String × α)) (id0 hid : String)
    (hne : hid ≠ id0) (xs : List α) :
    (((l.filter (fun p => !(p.1 == id0)) ++ xs.map (fun a => (id0, a))).filter
      (fun p => p.1 == hid)).map (fun p => p.2)) =
      ((l.filter (fun p => p.1 == hid)).map (fun p => p.2)) := by
  rw [List.filter_append, filter_key_del_other l id0 hid hne,
    filter_key_map_other xs id0 hid hne]
  simp

lemma childList_append_other {α : Type} (l : List (String × α)) (id0 hid : String)
    (hne : hid ≠ id0) (xs : List α) :
    (((l ++ xs.map (fun a => (id0, a))).filter (fun p => p.1 == hid)).map
      (fun p => p.2)) =
      ((l.filter (fun p => p.1 == hid)).map (fun p => p.2)) := by
  rw [List.filter_append, filter_key_map_other xs id0 hid hne]
  simp

lemma childList_append_self {α : Type} (l : List (String × α)) (id0 : String)
    (hl : (l.filter (fun p => p.1 == id0)).map (fun p => p.2) = [])
    (xs : List α) :
    (((l ++ xs.map (fun a => (id0, a))).filter (fun p => p.1 == id0)).map
      (fun p => p.2)) = xs := by
  have hfl : l.filter (fun p => p.1 == id0) = [] := by
    cases hfc : l.filter (fun p => p.1 == id0) with
    | nil => rfl
    | cons q rest =>
      rw [hfc] at hl
      simp at hl
  rw [List.filter_append, hfl, filter_key_map_self]
  simp [List.map_map]

/-- The combined store effect of the statements the create path issues. -/
lemma create_ops_effect (st : RefStore) (m : MappedHotel) (now : Nat)
    (ams : List AmenityRow) (ims : List ImageRow) :
    (([PendOp.insertHotel m now] ++
      (ams.map (PendOp.insertAmenity m.id) ++
       ims.map (PendOp.insertImage m.id))).foldl applyOp st) =
      { hotels := st.hotels ++ [newRefRow now m],
        amenities := st.amenities ++ ams.map (fun a => (m.id, a)),
        images := st.images ++ ims.map (fun i => (m.id, i)) } := by
  simp [List.foldl_cons, List.foldl_append, applyOp, foldl_insertAmenities,
    foldl_insertImages]

lemma update_row_id (id0 : String) (m : MappedHotel) (now : Nat)
    (h : RefHotelRow) :
    (if h.id == id0 then applyMappedUpdate now h m else h).id = h.id := by
  by_cases hc : (h.id == id0) = true <;> simp [hc, applyMappedUpdate]

lemma find?_none_of_map_update_none (hotels : List RefHotelRow) (id0 : String)
    (m : MappedHotel) (now : Nat) (hid : String)
    (h : (hotels.map (fun r => if r.id == id0 then applyMappedUpdate now r m
        else r)).find? (fun r => r.id == hid) = none) :
    hotels.find? (fun r => r.id == hid) = none := by
  rw [List.find?_eq_none] at h ⊢
  intro x hx
  have himg := h _ (List.mem_map_of_mem _ hx)
  rwa [update_row_id] at himg
lemma process_single_atomic (s : DbSession) (hd : RawHotel) (now : Nat)
    (hpend : s.pending = []) (hwf : wfStore s.committed) :
    ((_process_single_hotel s hd now).2.pending = [] ∧
     wfStore (_process_single_hotel s hd now).2.committed) ∧
    (∀ hid,
      (amenitiesOf (_process_single_hotel s hd now).2.committed hid =
         amenitiesOf s.committed hid ∧
       imagesOf (_process_single_hotel s hd now).2.committed hid =
         imagesOf s.committed hid) ∨
      ((mapHotel hd).1.id = hid ∧
       amenitiesOf (_process_single_hotel s hd now).2.committed hid =
         (mapHotel hd).2.1 ∧
       imagesOf (_process_single_hotel s hd now).2.committed hid =
         (mapHotel hd).2.2)) := by
  rcases hmap : mapHotel hd with ⟨m, ams, ims⟩
  by_cases hpo : s.poisoned = true
  · have hred : _process_single_hotel s hd now = (.error "PendingRollbackError", s) := by
      simp [_process_single_hotel, hmap, queryHotel, hpo]
    rw [hred]
    exact ⟨⟨hpend, hwf⟩, fun hid => Or.inl ⟨rfl, rfl⟩⟩
  · have hpo' : s.poisoned = false := Bool.eq_false_iff.mpr hpo
    cases hfind : s.committed.hotels.find? (fun h => h.id == m.id) with
    | some ex =>
      have hexid : ex.id = m.id := by
        have := List.find?_some hfind
        simpa using this
      simp only [_process_single_hotel, hmap, queryHotel, hpo', Bool.false_eq_true,
        if_false, hfind, commitDb, hpend, List.nil_append]
      by_cases hv : (([PendOp.updateHotel ex.id m now, PendOp.deleteAmenities ex.id] ++
          ams.map (PendOp.insertAmenity ex.id) ++ [PendOp.deleteImages ex.id] ++
          ims.map (PendOp.insertImage ex.id)).all opValid) = true
      · rw [if_pos hv]
        dsimp only
        rw [update_ops_effect, hexid]
        refine ⟨⟨rfl, ?_⟩, ?_⟩
        · intro hid hfound
          have hold := find?_none_of_map_update_none _ _ _ _ _ hfound
          have hne : hid ≠ m.id := by
            intro he
            rw [he] at hold
            rw [hold] at hfind
            exact Option.noConfusion hfind
          exact ⟨(childList_replace_other s.committed.amenities m.id hid hne ams).trans
              (hwf hid hold).1,
            (childList_replace_other s.committed.images m.id hid hne ims).trans
              (hwf hid hold).2⟩
        · intro hid
          by_cases hideq : m.id = hid
          · subst hideq
            exact Or.inr ⟨rfl, childList_replace_self _ _ _, childList_replace_self _ _ _⟩
          · have hne : hid ≠ m.id := fun he => hideq he.symm
            exact Or.inl ⟨childList_replace_other s.committed.amenities m.id hid hne ams,
              childList_replace_other s.committed.images m.id hid hne ims⟩
      · rw [if_neg hv]
        dsimp only
        exact ⟨⟨rfl, hwf⟩, fun hid => Or.inl ⟨rfl, rfl⟩⟩
    | none =>
      simp only [_process_single_hotel, hmap, queryHotel, hpo', Bool.false_eq_true,
        if_false, hfind, commitDb, flushDb, hpend, List.nil_append]
      by_cases hins : (([PendOp.insertHotel m now]).all opValid) = true
      · rw [if_pos hins]
        dsimp only
        simp only [Bool.false_eq_true, if_false]
        by_cases hall : (([PendOp.insertHotel m now] ++
            (ams.map (PendOp.insertAmenity m.id) ++
             ims.map (PendOp.insertImage m.id))).all opValid) = true
        · rw [if_pos hall]
          dsimp only
          rw [create_ops_effect]
          refine ⟨⟨rfl, ?_⟩, ?_⟩
          · intro hid hfound
            rw [List.find?_append] at hfound
            cases hfo : s.committed.hotels.find? (fun r => r.id == hid) with
            | some r =>
              rw [hfo] at hfound
              exact Option.noConfusion hfound
            | none =>
              rw [hfo, Option.none_or] at hfound
              have hne : hid ≠ m.id := by
                intro he
                rw [List.find?_eq_none] at hfound
                have hnr := hfound (newRefRow now m) (by simp)
                apply hnr
                simp [newRefRow, he]
              exact ⟨(childList_append_other s.committed.amenities m.id hid hne ams).trans
                  (hwf hid hfo).1,
                (childList_append_other s.committed.images m.id hid hne ims).trans
                  (hwf hid hfo).2⟩
          · intro hid
            by_cases hideq : m.id = hid
            · subst hideq
              exact Or.inr ⟨rfl,
                childList_append_self _ _ (hwf m.id hfind).1 _,
                childList_append_self _ _ (hwf m.id hfind).2 _⟩
            · have hne : hid ≠ m.id := fun he => hideq he.symm
              exact Or.inl ⟨childList_append_other s.committed.amenities m.id hid hne ams,
                childList_append_other s.committed.images m.id hid hne ims⟩
        · rw [if_neg hall]
          dsimp only
          exact ⟨⟨rfl, hwf⟩, fun hid => Or.inl ⟨rfl, rfl⟩⟩
      · rw [if_neg hins]
        dsimp only
        exact ⟨⟨rfl, hwf⟩, fun hid => Or.inl ⟨rfl, rfl⟩⟩

lemma batch_atomic (now : Nat) :
    ∀ (batch : List RawHotel) (s : DbSession), s.pending = [] → wfStore s.committed →
      ((batchFinal s now batch).pending = [] ∧
       wfStore (batchFinal s now batch).committed) ∧
      (∀ hid,
        (amenitiesOf (batchFinal s now batch).committed hid =
           amenitiesOf s.committed hid ∧
         imagesOf (batchFinal s now batch).committed hid =
           imagesOf s.committed hid) ∨
        (∃ hd ∈ batch, (mapHotel hd).1.id = hid ∧
          amenitiesOf (batchFinal s now batch).committed hid = (mapHotel hd).2.1 ∧
          imagesOf (batchFinal s now batch).committed hid = (mapHotel hd).2.2)) := by
  intro batch
  induction batch with
  | nil =>
    intro s hp hw
    exact ⟨⟨hp, hw⟩, fun hid => Or.inl ⟨rfl, rfl⟩⟩
  | cons hd rest ih =>
    intro s hp hw
    obtain ⟨⟨hp2, hw2⟩, hstep⟩ := process_single_atomic s hd now hp hw
    have hbf : batchFinal s now (hd :: rest) =
        batchFinal (_process_single_hotel s hd now).2 now rest := rfl
    obtain ⟨⟨hp3, hw3⟩, hrest⟩ := ih (_process_single_hotel s hd now).2 hp2 hw2
    rw [hbf]
    refine ⟨⟨hp3, hw3⟩, ?_⟩
    intro hid
    rcases hrest hid with ⟨ha, hi⟩ | ⟨hdX, hmem, hids, ha, hi⟩
    · rcases hstep hid with ⟨ha1, hi1⟩ | ⟨hids1, ha1, hi1⟩
      · exact Or.inl ⟨ha.trans ha1, hi.trans hi1⟩
      · exact Or.inr ⟨hd, List.mem_cons_self hd rest, hids1, ha.trans ha1,
          hi.trans hi1⟩
    · exact Or.inr ⟨hdX, List.mem_cons_of_mem hd hmem, hids, ha, hi⟩

/-- C3: per-hotel atomicity of the upsert.  Starting from a session with no
open transaction and a store satisfying the child foreign keys, after a batch
run every hotel id holds either its complete pre-refresh amenity/image child
set or the complete new child set mapped from one of the batch records — a
record whose processing fails partway never leaves a partial
(deleted-but-not-reinserted) child set, because a failed flush rolls the
transaction back and poisons the session, so no later commit on the same
session can sweep in the partial delete. -/
theorem refresh_upsert_atomic_per_hotel (s : DbSession) (batch : List RawHotel)
    (now : Nat) (hpend : s.pending = []) (hwf : wfStore s.committed)
    (hid : String) :
    (amenitiesOf (_process_hotel_batch s batch now).2.committed hid =
       amenitiesOf s.committed hid ∧
     imagesOf (_process_hotel_batch s batch now).2.committed hid =
       imagesOf s.committed hid) ∨
    (∃ hd ∈ batch, (mapHotel hd).1.id = hid ∧
      amenitiesOf (_process_hotel_batch s batch now).2.committed hid =
        (mapHotel hd).2.1 ∧
      imagesOf (_process_hotel_batch s batch now).2.committed hid =
        (mapHotel hd).2.2) := by
  have hsess : (_process_hotel_batch s batch now).2 = batchFinal s now batch := by
    unfold _process_hotel_batch
    exact (batch_fold_components now batch _ s).2.2.2.2.2.2
  rw [hsess]
  exact (batch_atomic now batch s hpend hwf).2 hid

/-- An upstream record for the atomicity witness. -/
def wRawHotel : RawHotel :=
  { rid := some "7", hotelName := some "W Hotel", description := none,
    addressLine1 := none, cityName := none, stateName := none,
    countryName := none, postalCode := none, lat := none, lng := none,
    rating := none, reviewsRating := none, reviewsCount := none,
    facilities := ["Free WiFi"], image := some "front.jpg" }

/-- Witness for C3 at a concrete batch over the fresh session. -/
theorem refresh_upsert_atomic_per_hotel_witness :
    (amenitiesOf (_process_hotel_batch emptySession [wRawHotel] 5).2.committed "7" =
       amenitiesOf emptySession.committed "7" ∧
     imagesOf (_process_hotel_batch emptySession [wRawHotel] 5).2.committed "7" =
       imagesOf emptySession.committed "7") ∨
    (∃ hd ∈ [wRawHotel], (mapHotel hd).1.id = "7" ∧
      amenitiesOf (_process_hotel_batch emptySession [wRawHotel] 5).2.committed "7" =
        (mapHotel hd).2.1 ∧
      imagesOf (_process_hotel_batch emptySession [wRawHotel] 5).2.committed "7" =
        (mapHotel hd).2.2) :=
  refresh_upsert_atomic_per_hotel emptySession [wRawHotel] 5 rfl
    (fun _ _ => ⟨rfl, rfl⟩) "7"
